import Mathlib

/-!
Verification of the constraint-aware scheduling engine (greedy scheduler with
light-day backfill) against its natural-language specification.

Shallow embedding conventions:
* Calendar dates are `Nat` day numbers counted from a fixed Monday epoch, so
  Python's `date.weekday()` (Mon=0..Sun=6) becomes `d % 7`.
* Times of day and durations are minutes (`Nat`); Python `time` objects compare
  like their minute values, and `datetime.combine(today, t) + timedelta(minutes=m)`
  followed by `.time()` becomes `(t + m) % 1440` (the day component is dropped,
  so the addition wraps at midnight exactly as in the source).
* Python truthiness of optional fields is modelled by `Option` (absent = `none`);
  truthiness of lists is emptiness.
* Scores are `ℚ` (the source uses floats; every constant in the scoring code is
  a dyadic rational, and the claims are stated in exact arithmetic).
* Human-readable violation message strings are elided from `ConstraintViolation`;
  all other fields are kept.
-/

/-- Frequency pattern enumeration, from `models/activity.py` (`FrequencyPattern`). -/
inductive FrequencyPattern where
  | daily
  | weekly
  | monthly
  | custom
deriving DecidableEq, Repr

/-- Frequency record, from `models/activity.py` (`Frequency`). -/
structure Frequency where
  pattern : FrequencyPattern
  count : Nat
  preferred_days : Option (List Nat)
  interval_days : Option Nat
deriving DecidableEq, Repr

/-- Activity record, from `models/activity.py` (`Activity`); cosmetic metadata
fields (details, preparation, backups, metrics) are elided, as are the
`type` and `location` enumerations, which the scheduling engine never reads. -/
structure Activity where
  id : String
  priority : Nat
  frequency : Frequency
  duration_minutes : Nat
  time_window_start : Option Nat
  time_window_end : Option Nat
  specialist_id : Option String
  equipment_ids : List String
  remote_capable : Bool
deriving DecidableEq, Repr

/-- Booked slot, from `models/schedule.py` (`TimeSlot`). -/
structure TimeSlot where
  activity_id : String
  date : Nat
  start_time : Nat
  duration_minutes : Nat
  specialist_id : Option String
  equipment_ids : List String
deriving DecidableEq, Repr

/-- Weekly availability block, from `models/constraints.py` (`AvailabilityBlock`). -/
structure AvailabilityBlock where
  day_of_week : Nat
  start_time : Nat
  end_time : Nat
deriving DecidableEq, Repr

/-- Specialist record, from `models/constraints.py` (`Specialist`). -/
structure Specialist where
  id : String
  availability : List AvailabilityBlock
  days_off : List Nat
  max_concurrent_clients : Nat
deriving DecidableEq, Repr

/-- Maintenance window, from `models/constraints.py` (`MaintenanceWindow`). -/
structure MaintenanceWindow where
  start_date : Nat
  end_date : Nat
  start_time : Option Nat
  end_time : Option Nat
deriving DecidableEq, Repr

/-- Equipment record, from `models/constraints.py` (`Equipment`). -/
structure Equipment where
  id : String
  maintenance_windows : List MaintenanceWindow
  max_concurrent_users : Nat
deriving DecidableEq, Repr

/-- Travel period, from `models/constraints.py` (`TravelPeriod`). -/
structure TravelPeriod where
  start_date : Nat
  end_date : Nat
  remote_activities_only : Bool
deriving DecidableEq, Repr

/-- Violation kind, the `constraint_type` strings of
`scheduler/constraints.py` as a tagged sum. -/
inductive ViolationKind where
  | time_window
  | overlap
  | specialist
  | equipment
  | travel
deriving DecidableEq, Repr

/-- Constraint violation record, from `scheduler/constraints.py`
(`ConstraintViolation`); the human-message `reason` string is elided. -/
structure ConstraintViolation where
  constraint_type : ViolationKind
  activity_id : String
  date : Nat
  start_time : Nat
deriving DecidableEq, Repr

/-- Python dict built by `{x.id: x for x in xs}` followed by `.get(k)`:
later entries overwrite earlier ones, so lookup returns the last match. -/
def dictGet {α : Type} (key : α → String) (xs : List α) (k : String) : Option α :=
  xs.foldl (fun acc x => if key x == k then some x else acc) none

/-- `_add_minutes_to_time` of `scheduler/constraints.py` / `scheduler/greedy.py`:
`datetime.combine(today, t) + timedelta(minutes=m)` then `.time()` — the result
wraps modulo one day. -/
def add_minutes_to_time (t m : Nat) : Nat :=
  (t + m) % 1440

/-- `_times_overlap` of `scheduler/constraints.py`. -/
def times_overlap (start1 end1 start2 end2 : Nat) : Bool :=
  decide (start1 < end2) && decide (start2 < end1)

/-- Constraint checker resource tables, from `ConstraintChecker.__init__`
(the id-keyed dicts are kept as the underlying vectors; lookups go through
`dictGet`, reproducing the dict's last-wins key semantics). -/
structure ConstraintChecker where
  specialists : List Specialist
  equipment : List Equipment
  travel_periods : List TravelPeriod
deriving DecidableEq, Repr

/-- `ConstraintChecker._check_overlap`: scan all booked slots in order, skip
other dates, return on the first slot whose half-open wrapped interval
intersects the candidate (`start1 < end2 and start2 < end1`); the loop's
precomputed `end_time`/`slot_end` values are inlined. -/
def check_overlap (activity : Activity) (date start_time : Nat) :
    List TimeSlot → Option ConstraintViolation
  | [] => none
  | slot :: rest =>
    if slot.date == date then
      if decide (start_time < add_minutes_to_time slot.start_time slot.duration_minutes) &&
          decide (slot.start_time < add_minutes_to_time start_time activity.duration_minutes) then
        some ⟨ViolationKind.overlap, activity.id, date, start_time⟩
      else check_overlap activity date start_time rest
    else check_overlap activity date start_time rest

/-- `ConstraintChecker._check_specialist`. The `none` branch for a missing
`specialist_id` is unreachable in the source (the caller guards on truthiness). -/
def check_specialist (c : ConstraintChecker) (activity : Activity)
    (date start_time : Nat) : Option ConstraintViolation :=
  match activity.specialist_id with
  | none => none
  | some sid =>
    match dictGet Specialist.id c.specialists sid with
    | none => some ⟨ViolationKind.specialist, activity.id, date, start_time⟩
    | some specialist =>
      if specialist.days_off.contains date then
        some ⟨ViolationKind.specialist, activity.id, date, start_time⟩
      else
        let day_of_week := date % 7
        let available_blocks := specialist.availability.filter
          (fun block => block.day_of_week == day_of_week)
        if available_blocks.isEmpty then
          some ⟨ViolationKind.specialist, activity.id, date, start_time⟩
        else
          let end_time := add_minutes_to_time start_time activity.duration_minutes
          if available_blocks.any (fun block =>
              decide (block.start_time ≤ start_time) && decide (end_time ≤ block.end_time)) then
            none
          else
            some ⟨ViolationKind.specialist, activity.id, date, start_time⟩

/-- Body of the per-equipment-id loop of `ConstraintChecker._check_equipment`. -/
def check_equipment_one (c : ConstraintChecker) (activity : Activity)
    (date start_time : Nat) (booked_slots : List TimeSlot) (equip_id : String) :
    Option ConstraintViolation :=
  let end_time := add_minutes_to_time start_time activity.duration_minutes
  match dictGet Equipment.id c.equipment equip_id with
  | none => some ⟨ViolationKind.equipment, activity.id, date, start_time⟩
  | some equip =>
    match equip.maintenance_windows.findSome? (fun window =>
      if decide (window.start_date ≤ date) && decide (date ≤ window.end_date) then
        match window.start_time, window.end_time with
        | some wst, some wet =>
          if decide (start_time < wet) && decide (wst < end_time) then
            some ⟨ViolationKind.equipment, activity.id, date, start_time⟩
          else none
        | _, _ => some ⟨ViolationKind.equipment, activity.id, date, start_time⟩
      else none) with
    | some v => some v
    | none =>
      let concurrent_count := booked_slots.countP (fun slot =>
        slot.equipment_ids.contains equip_id && slot.date == date &&
          times_overlap start_time end_time slot.start_time
            (add_minutes_to_time slot.start_time slot.duration_minutes))
      if decide (equip.max_concurrent_users ≤ concurrent_count) then
        some ⟨ViolationKind.equipment, activity.id, date, start_time⟩
      else none

/-- `ConstraintChecker._check_equipment`: first violation over the required ids. -/
def check_equipment (c : ConstraintChecker) (activity : Activity)
    (date start_time : Nat) (booked_slots : List TimeSlot) :
    Option ConstraintViolation :=
  activity.equipment_ids.findSome? (check_equipment_one c activity date start_time booked_slots)

/-- `ConstraintChecker._check_travel`; the violation's start time is the
placeholder `time(0, 0)` of the source. -/
def check_travel (c : ConstraintChecker) (activity : Activity) (date : Nat) :
    Option ConstraintViolation :=
  c.travel_periods.findSome? fun travel =>
    if decide (travel.start_date ≤ date) && decide (date ≤ travel.end_date) then
      if travel.remote_activities_only && !activity.remote_capable then
        some ⟨ViolationKind.travel, activity.id, date, 0⟩
      else none
    else none

/-- Steps of `ConstraintChecker.check_time_slot` after the time-window rule:
overlap, then specialist (guarded on a truthy `specialist_id`), then equipment
(guarded on a non-empty `equipment_ids`), then travel. -/
def check_after_window (c : ConstraintChecker) (activity : Activity)
    (date start_time : Nat) (booked_slots : List TimeSlot) :
    Option ConstraintViolation :=
  match check_overlap activity date start_time booked_slots with
  | some v => some v
  | none =>
    match (if activity.specialist_id.isSome then
            check_specialist c activity date start_time
          else none) with
    | some v => some v
    | none =>
      match (if activity.equipment_ids.isEmpty then none
            else check_equipment c activity date start_time booked_slots) with
      | some v => some v
      | none => check_travel c activity date

/-- `ConstraintChecker.check_time_slot`: time-window rule first (only when both
window bounds are present), then the remaining rules in fixed order. -/
def check_time_slot (c : ConstraintChecker) (activity : Activity)
    (date start_time : Nat) (booked_slots : List TimeSlot) :
    Option ConstraintViolation :=
  match activity.time_window_start, activity.time_window_end with
  | some ws, some we =>
    let end_time := add_minutes_to_time start_time activity.duration_minutes
    if decide (start_time < ws) || decide (we < end_time) then
      some ⟨ViolationKind.time_window, activity.id, date, start_time⟩
    else check_after_window c activity date start_time booked_slots
  | _, _ => check_after_window c activity date start_time booked_slots

/-- Association-list lookup: first entry with the given key (well-formed states
never hold duplicate keys, mirroring a Python dict). -/
def alistGet {β : Type} (l : List (String × β)) (k : String) : Option β :=
  (l.find? (fun p => p.1 == k)).map (·.2)

/-- Python's builtin `max` on two rationals (kernel-computable form). -/
def ratMax (a b : ℚ) : ℚ :=
  if a ≤ b then b else a

/-- Python's builtin `min` on two rationals (kernel-computable form). -/
def ratMin (a b : ℚ) : ℚ :=
  if a ≤ b then a else b

/-- Python's builtin `abs` on a rational (kernel-computable form). -/
def ratAbs (a : ℚ) : ℚ :=
  if a < 0 then -a else a

/-- Scorer state, from `scheduler/scoring.py` (`SlotScorer.__init__`):
`daily_counts` is a defaultdict date → count, `weekly_patterns` a defaultdict
activity id → list of booked weekdays. -/
structure SlotScorer where
  daily_counts : List (Nat × Nat)
  weekly_patterns : List (String × List Nat)
deriving DecidableEq, Repr

/-- The empty `SlotScorer()`. -/
def initScorer : SlotScorer :=
  ⟨[], []⟩

/-- `SlotScorer._score_time_preference`. -/
def score_time_preference (activity : Activity) (start_time : Nat) : ℚ :=
  match activity.time_window_start, activity.time_window_end with
  | some ws, some we =>
    let window_duration : ℤ := (we : ℤ) - (ws : ℤ)
    if window_duration ≤ 0 then 5
    else
      let position : ℚ := ((start_time : ℚ) - (ws : ℚ)) / ((we : ℚ) - (ws : ℚ))
      let distance_from_center := ratAbs (position - 1/2)
      ratMax 5 (10 - 20 * distance_from_center ^ 2)
  | _, _ =>
    let hour := start_time / 60
    if 6 ≤ hour ∧ hour < 9 then 8
    else if 9 ≤ hour ∧ hour < 17 then 7
    else if 17 ≤ hour ∧ hour < 20 then 6
    else 4

/-- `SlotScorer._score_grouping`: +1 per same-day booking whose activity id
shares a 3-character prefix, capped at 2 (0 when the day is empty). -/
def score_grouping (activity : Activity) (date : Nat)
    (booked_slots : List TimeSlot) : ℚ :=
  let same_day_slots := booked_slots.filter (fun s => s.date == date)
  if same_day_slots.isEmpty then 0
  else
    let same_type_count := same_day_slots.countP
      (fun slot => activity.id.take 3 == slot.activity_id.take 3)
    ratMin 2 (same_type_count : ℚ)

/-- `SlotScorer._score_overcrowding`. -/
def score_overcrowding (date : Nat) (booked_slots : List TimeSlot) : ℚ :=
  let same_day_count := booked_slots.countP (fun s => s.date == date)
  if same_day_count ≤ 3 then 0
  else if same_day_count == 4 then -(1/2)
  else if same_day_count == 5 then -1
  else -2

/-- `SlotScorer._score_consistency`: reads the scorer's weekly pattern log
(`dict.get(id, [])`). -/
def score_consistency (scorer : SlotScorer) (activity : Activity) (date : Nat) : ℚ :=
  let weekday := date % 7
  let past_weekdays := (alistGet scorer.weekly_patterns activity.id).getD []
  if past_weekdays.isEmpty then 0
  else
    let same_weekday_count := past_weekdays.count weekday
    if 2 ≤ same_weekday_count then 2
    else if same_weekday_count == 1 then 1
    else 0

/-- `SlotScorer._score_day_preference`: `if not preferred_days` covers both the
absent and the empty list. -/
def score_day_preference (activity : Activity) (date : Nat) : ℚ :=
  match activity.frequency.preferred_days with
  | none => 0
  | some l =>
    if l.isEmpty then 0
    else if l.contains (date % 7) then 1 else 0

/-- `SlotScorer.score_slot`: clamped sum of the five components. -/
def score_slot (scorer : SlotScorer) (activity : Activity) (date start_time : Nat)
    (booked_slots : List TimeSlot) : ℚ :=
  let score := score_time_preference activity start_time
    + score_grouping activity date booked_slots
    + score_overcrowding date booked_slots
    + score_consistency scorer activity date
    + score_day_preference activity date
  ratMax 0 (ratMin 10 score)

/-- Defaultdict `+= 1` on `daily_counts` (new keys are appended). -/
def bumpDailyCount (l : List (Nat × Nat)) (date : Nat) : List (Nat × Nat) :=
  if (l.find? (fun p => p.1 == date)).isSome then
    l.map (fun p => if p.1 == date then (p.1, p.2 + 1) else p)
  else l ++ [(date, 1)]

/-- Defaultdict `.append(weekday)` on `weekly_patterns` (new keys appended). -/
def appendPattern (l : List (String × List Nat)) (k : String) (weekday : Nat) :
    List (String × List Nat) :=
  if (l.find? (fun p => p.1 == k)).isSome then
    l.map (fun p => if p.1 == k then (p.1, p.2 ++ [weekday]) else p)
  else l ++ [(k, [weekday])]

/-- `SlotScorer.record_booking`. -/
def record_booking (scorer : SlotScorer) (activity : Activity) (date : Nat) :
    SlotScorer :=
  { daily_counts := bumpDailyCount scorer.daily_counts date,
    weekly_patterns := appendPattern scorer.weekly_patterns activity.id (date % 7) }

/-- Failure record, from `scheduler/state.py` (`SchedulingAttempt`). -/
structure SchedulingAttempt where
  activity : Activity
  attempts : Nat
  violations : List ConstraintViolation
deriving DecidableEq, Repr

/-- Scheduler state, from `scheduler/state.py` (`SchedulerState.__init__`). -/
structure SchedulerState where
  booked_slots : List TimeSlot
  specialist_bookings : List (String × List TimeSlot)
  equipment_bookings : List (String × List TimeSlot)
  failed_activities : List (String × SchedulingAttempt)
  activity_occurrences : List (String × Nat)
deriving DecidableEq, Repr

/-- The empty `SchedulerState()`. -/
def initState : SchedulerState :=
  ⟨[], [], [], [], []⟩

/-- Defaultdict `.append(slot)` on a slot index. -/
def appendSlotIndex (l : List (String × List TimeSlot)) (k : String)
    (slot : TimeSlot) : List (String × List TimeSlot) :=
  if (l.find? (fun p => p.1 == k)).isSome then
    l.map (fun p => if p.1 == k then (p.1, p.2 ++ [slot]) else p)
  else l ++ [(k, [slot])]

/-- Defaultdict `+= 1` on the occurrence counter. -/
def bumpOccurrence (l : List (String × Nat)) (k : String) : List (String × Nat) :=
  if (l.find? (fun p => p.1 == k)).isSome then
    l.map (fun p => if p.1 == k then (p.1, p.2 + 1) else p)
  else l ++ [(k, 1)]

/-- `SchedulerState.add_booking`. -/
def add_booking (s : SchedulerState) (slot : TimeSlot) : SchedulerState :=
  { booked_slots := s.booked_slots ++ [slot],
    specialist_bookings :=
      match slot.specialist_id with
      | some sid => appendSlotIndex s.specialist_bookings sid slot
      | none => s.specialist_bookings,
    equipment_bookings :=
      slot.equipment_ids.foldl (fun idx eid => appendSlotIndex idx eid slot)
        s.equipment_bookings,
    failed_activities := s.failed_activities,
    activity_occurrences := bumpOccurrence s.activity_occurrences slot.activity_id }

/-- Update step of `record_failure` on an existing entry: `attempts += 1` and
`violations.append(violation)`. -/
def updAttempt (violation : ConstraintViolation) (att : SchedulingAttempt) :
    SchedulingAttempt :=
  ⟨att.activity, att.attempts + 1, att.violations ++ [violation]⟩

/-- `SchedulerState.record_failure`. -/
def record_failure (s : SchedulerState) (activity : Activity)
    (violation : ConstraintViolation) : SchedulerState :=
  { s with failed_activities :=
      match alistGet s.failed_activities activity.id with
      | none => s.failed_activities ++ [(activity.id, ⟨activity, 1, [violation]⟩)]
      | some _ => s.failed_activities.map (fun p =>
          if p.1 == activity.id then (p.1, updAttempt violation p.2) else p) }

/-- `SchedulerState.get_occurrence_count` (defaultdict read: 0 when absent). -/
def get_occurrence_count (s : SchedulerState) (activity_id : String) : Nat :=
  (alistGet s.activity_occurrences activity_id).getD 0

/-- Number of attempts in the failure record of an activity (0 when absent). -/
def failAttempts (s : SchedulerState) (activity_id : String) : Nat :=
  ((alistGet s.failed_activities activity_id).map (·.attempts)).getD 0

/-- Violation log of the failure record of an activity ([] when absent). -/
def failViolations (s : SchedulerState) (activity_id : String) :
    List ConstraintViolation :=
  ((alistGet s.failed_activities activity_id).map (·.violations)).getD []

/-- Number of booked slots carrying a given activity id. -/
def bookedCount (s : SchedulerState) (activity_id : String) : Nat :=
  s.booked_slots.countP (fun ts => ts.activity_id == activity_id)

/-- Stable insertion used by `pyStableSortBy`: `le y x` means an already-placed
`y` stays in front of the incoming `x`, so equal elements keep input order. -/
def stableInsertBy {α : Type} (le : α → α → Bool) (x : α) : List α → List α
  | [] => [x]
  | y :: ys => if le y x then y :: stableInsertBy le x ys else x :: y :: ys

/-- Stable sort (insertion sort inserting after equals), modelling Python's
stable `sorted` / `list.sort` for the comparator at hand. -/
def pyStableSortBy {α : Type} (le : α → α → Bool) (l : List α) : List α :=
  l.foldl (fun acc x => stableInsertBy le x acc) []

/-- `frequency_importance` of `GreedyScheduler._sort_activities`. -/
def frequency_importance (activity : Activity) : Nat :=
  match activity.frequency.pattern with
  | FrequencyPattern.daily => 3
  | FrequencyPattern.weekly => 2
  | FrequencyPattern.monthly => 1
  | FrequencyPattern.custom => 0

/-- `GreedyScheduler._sort_activities`: stable sort by
`(priority, -frequency_importance)` ascending. -/
def sort_activities (activities : List Activity) : List Activity :=
  pyStableSortBy (fun y x =>
    decide (y.priority < x.priority) ||
      (y.priority == x.priority && decide (frequency_importance x ≤ frequency_importance y)))
    activities

/-- Scheduler configuration, from `GreedyScheduler.__init__` (the mutable
`state` and `scorer` are threaded explicitly through the functions below). -/
structure GreedyScheduler where
  activities : List Activity
  checker : ConstraintChecker
  start_date : Nat
  duration_days : Nat
deriving DecidableEq, Repr

/-- `self.end_date = start_date + timedelta(days=duration_days - 1)`. -/
def GreedyScheduler.end_date (g : GreedyScheduler) : Nat :=
  g.start_date + g.duration_days - 1

/-- `GreedyScheduler.__init__` called on the raw input vectors. -/
def newScheduler (activities : List Activity) (specialists : List Specialist)
    (equipment : List Equipment) (travel_periods : List TravelPeriod)
    (start_date duration_days : Nat) : GreedyScheduler :=
  ⟨activities, ⟨specialists, equipment, travel_periods⟩, start_date, duration_days⟩

/-- `GreedyScheduler._calculate_required_occurrences`; a set-but-zero
`interval_days` is falsy in Python, hence the explicit `k == 0` fallback. -/
def calculate_required_occurrences (g : GreedyScheduler) (activity : Activity) : Nat :=
  match activity.frequency.pattern with
  | FrequencyPattern.daily => g.duration_days
  | FrequencyPattern.weekly => (g.duration_days / 7) * activity.frequency.count
  | FrequencyPattern.monthly => (g.duration_days / 30) * activity.frequency.count
  | FrequencyPattern.custom =>
    match activity.frequency.interval_days with
    | some k => if k == 0 then activity.frequency.count else g.duration_days / k
    | none => activity.frequency.count

/-- `GreedyScheduler._generate_times_for_date`: half-hour grid inside the
window (or 06:00–20:30 without one); with a window, a candidate is kept when
it starts at/after the window start and its wrapped end is at/before the
window end. -/
def generate_times_for_date (activity : Activity) (date : Nat) :
    List (Nat × Nat) :=
  match activity.time_window_start, activity.time_window_end with
  | some ws, some we =>
    let start_hour := ws / 60
    let end_hour := we / 60
    ((List.range (end_hour + 1 - start_hour)).map (start_hour + ·)).flatMap fun hour =>
      [0, 30].filterMap fun minute =>
        let candidate_time := hour * 60 + minute
        if decide (ws ≤ candidate_time) then
          let end_time := add_minutes_to_time candidate_time activity.duration_minutes
          if decide (end_time ≤ we) then some (date, candidate_time) else none
        else none
  | _, _ =>
    ((List.range 15).map (6 + ·)).flatMap fun hour =>
      [(date, hour * 60), (date, hour * 60 + 30)]

/-- `GreedyScheduler._sort_dates_by_lightness`: stable sort ascending by the
current number of bookings on the date (`Counter.get(d, 0)`). -/
def sort_dates_by_lightness (s : SchedulerState) (dates : List Nat) : List Nat :=
  let count := fun (d : Nat) => s.booked_slots.countP (fun slot => slot.date == d)
  pyStableSortBy (fun y x => decide (count y ≤ count x)) dates

/-- Candidate dates of `GreedyScheduler._generate_candidate_slots` before the
lightness sort, split by frequency pattern. Python's
`(target_weekday - week_start.weekday()) % 7` is reproduced as
`(target_weekday + 7 - week_start % 7) % 7` (exact for natural inputs). -/
def generate_candidate_dates (g : GreedyScheduler) (activity : Activity)
    (occurrence_index : Nat) : List Nat :=
  let freq := activity.frequency
  match freq.pattern with
  | FrequencyPattern.daily =>
    let candidate_date := g.start_date + occurrence_index
    if decide (candidate_date ≤ g.end_date) then [candidate_date] else []
  | FrequencyPattern.weekly =>
    let week_number := occurrence_index / freq.count
    let within_week_index := occurrence_index % freq.count
    let target_weekday :=
      match freq.preferred_days with
      | some (d :: ds) => (d :: ds).getD (within_week_index % (ds.length + 1)) 0
      | _ => within_week_index % 5
    let week_start := g.start_date + 7 * week_number
    let days_to_add := (target_weekday + 7 - week_start % 7) % 7
    let primary_date := week_start + days_to_add
    let primary := if decide (primary_date ≤ g.end_date) then [primary_date] else []
    let total_weeks := g.duration_days / 7
    let backups := (List.range total_weeks).filterMap fun alt_week =>
      if alt_week == week_number then none
      else
        let alt_date := g.start_date + 7 * alt_week + days_to_add
        if decide (g.start_date ≤ alt_date) && decide (alt_date ≤ g.end_date) then
          some alt_date
        else none
    primary ++ backups
  | FrequencyPattern.monthly =>
    let month_number := occurrence_index / freq.count
    let primary_date := g.start_date + 30 * month_number
    let primary := if decide (primary_date ≤ g.end_date) then [primary_date] else []
    let total_months := g.duration_days / 30
    let backups := (List.range total_months).filterMap fun alt_month =>
      if alt_month == month_number then none
      else
        let alt_date := g.start_date + 30 * alt_month
        if decide (g.start_date ≤ alt_date) && decide (alt_date ≤ g.end_date) then
          some alt_date
        else none
    primary ++ backups
  | FrequencyPattern.custom =>
    match freq.interval_days with
    | some k =>
      if k == 0 then []
      else
        let primary_date := g.start_date + occurrence_index * k
        if decide (primary_date ≤ g.end_date) then [primary_date] else []
    | none => []

/-- `GreedyScheduler._generate_candidate_slots`: dates (lightest-first for
priority ≥ 3) expanded into times. -/
def generate_candidate_slots (g : GreedyScheduler) (activity : Activity)
    (occurrence_index : Nat) (s : SchedulerState) : List (Nat × Nat) :=
  let candidate_dates := generate_candidate_dates g activity occurrence_index
  let candidate_dates :=
    if decide (3 ≤ activity.priority) then sort_dates_by_lightness s candidate_dates
    else candidate_dates
  candidate_dates.flatMap (fun d => generate_times_for_date activity d)

/-- Candidate evaluation loop of `GreedyScheduler._find_best_slot`: valid
candidates are scored and collected, rejected ones call
`state.record_failure`; `booked_slots` never changes inside the loop. -/
def evalCandidates (g : GreedyScheduler) (activity : Activity) (scorer : SlotScorer) :
    List (Nat × Nat) → SchedulerState → List (ℚ × Nat × Nat) →
    List (ℚ × Nat × Nat) × SchedulerState
  | [], s, acc => (acc, s)
  | (date, start_time) :: rest, s, acc =>
    match check_time_slot g.checker activity date start_time s.booked_slots with
    | none =>
      evalCandidates g activity scorer rest s
        (acc ++ [(score_slot scorer activity date start_time s.booked_slots, date, start_time)])
    | some violation =>
      evalCandidates g activity scorer rest (record_failure s activity violation) acc

/-- `scored_slots.sort(reverse=True, key=lambda x: x[0])`: stable descending
sort on the score component. -/
def pySortDesc (l : List (ℚ × Nat × Nat)) : List (ℚ × Nat × Nat) :=
  pyStableSortBy (fun y x => decide (x.1 ≤ y.1)) l

/-- `GreedyScheduler._find_best_slot`: evaluate all candidates, then take the
head of the stable descending sort (best score, earliest generation order). -/
def find_best_slot (g : GreedyScheduler) (activity : Activity)
    (occurrence_index : Nat) (s : SchedulerState) (scorer : SlotScorer) :
    Option TimeSlot × SchedulerState :=
  let candidate_slots := generate_candidate_slots g activity occurrence_index s
  let res := evalCandidates g activity scorer candidate_slots s []
  match (pySortDesc res.1).head? with
  | none => (none, res.2)
  | some (_, best_date, best_time) =>
    (some ⟨activity.id, best_date, best_time, activity.duration_minutes,
      activity.specialist_id, activity.equipment_ids⟩, res.2)

/-- Occurrence loop of `GreedyScheduler._schedule_activity` over the listed
occurrence indexes. -/
def scheduleOccurrences (g : GreedyScheduler) (activity : Activity) :
    List Nat → SchedulerState × SlotScorer → SchedulerState × SlotScorer
  | [], acc => acc
  | i :: rest, (s, scorer) =>
    let res := find_best_slot g activity i s scorer
    match res.1 with
    | some slot =>
      scheduleOccurrences g activity rest
        (add_booking res.2 slot, record_booking scorer activity slot.date)
    | none => scheduleOccurrences g activity rest (res.2, scorer)

/-- `GreedyScheduler._schedule_activity`. -/
def schedule_activity (g : GreedyScheduler) (acc : SchedulerState × SlotScorer)
    (activity : Activity) : SchedulerState × SlotScorer :=
  scheduleOccurrences g activity
    (List.range (calculate_required_occurrences g activity)) acc

/-- Phase 1 of `GreedyScheduler.schedule`: the main pass over the sorted
activities, starting from the empty state and scorer. -/
def runPhase1 (g : GreedyScheduler) : SchedulerState × SlotScorer :=
  (sort_activities g.activities).foldl (schedule_activity g) (initState, initScorer)

/-- `GreedyScheduler._find_light_days`. -/
def find_light_days (g : GreedyScheduler) (s : SchedulerState)
    (max_activities : Nat) : List Nat :=
  let count := fun (d : Nat) => s.booked_slots.countP (fun slot => slot.date == d)
  let all_days := (List.range g.duration_days).map (g.start_date + ·)
  let light_days := all_days.filter (fun day => decide (count day < max_activities))
  pyStableSortBy (fun y x => decide (count y ≤ count x)) light_days

/-- Scoring loop of the backfill pass (rejected candidates are dropped
silently: `_backfill_failed_activities` never records failures). -/
def backfillScore (g : GreedyScheduler) (activity : Activity) (scorer : SlotScorer)
    (s : SchedulerState) : List (Nat × Nat) → List (ℚ × Nat × Nat) →
    List (ℚ × Nat × Nat)
  | [], acc => acc
  | (date, start_time) :: rest, acc =>
    match check_time_slot g.checker activity date start_time s.booked_slots with
    | none =>
      backfillScore g activity scorer s rest
        (acc ++ [(score_slot scorer activity date start_time s.booked_slots, date, start_time)])
    | some _ => backfillScore g activity scorer s rest acc

/-- Inner `for _ in range(missing)` loop of
`GreedyScheduler._backfill_failed_activities`; `light_days` is refreshed after
every successful booking, and a round with no valid slot breaks out. -/
def backfillLoop (g : GreedyScheduler) (activity : Activity) :
    Nat → SchedulerState × SlotScorer × List Nat →
    SchedulerState × SlotScorer × List Nat
  | 0, acc => acc
  | missing + 1, (s, scorer, light_days) =>
    let candidates := light_days.flatMap (fun day => generate_times_for_date activity day)
    let scored_slots := backfillScore g activity scorer s candidates []
    match (pySortDesc scored_slots).head? with
    | some (_, best_date, best_time) =>
      let slot : TimeSlot := ⟨activity.id, best_date, best_time,
        activity.duration_minutes, activity.specialist_id, activity.equipment_ids⟩
      let s1 := add_booking s slot
      backfillLoop g activity missing
        (s1, record_booking scorer activity best_date, find_light_days g s1 15)
    | none => (s, scorer, light_days)

/-- Outer activity loop of `GreedyScheduler._backfill_failed_activities`;
the current `light_days` list is carried across activities. -/
def backfillFold (g : GreedyScheduler) :
    List Activity → SchedulerState × SlotScorer × List Nat →
    SchedulerState × SlotScorer × List Nat
  | [], acc => acc
  | activity :: rest, (s, scorer, light_days) =>
    let required := calculate_required_occurrences g activity
    let scheduled := get_occurrence_count s activity.id
    let missing := required - scheduled
    if missing == 0 then backfillFold g rest (s, scorer, light_days)
    else backfillFold g rest (backfillLoop g activity missing (s, scorer, light_days))

/-- `GreedyScheduler._backfill_failed_activities`. -/
def backfill_failed_activities (g : GreedyScheduler) (sorted_activities : List Activity)
    (s : SchedulerState) (scorer : SlotScorer) : SchedulerState × SlotScorer :=
  let res := backfillFold g sorted_activities (s, scorer, find_light_days g s 15)
  (res.1, res.2.1)

/-- `GreedyScheduler.schedule`: Phase 1 (main pass) then Phase 2 (light-day
backfill); returns the final state. -/
def schedule (g : GreedyScheduler) : SchedulerState :=
  let sorted_activities := sort_activities g.activities
  let p1 := runPhase1 g
  (backfill_failed_activities g sorted_activities p1.1 p1.2).1

/-- Spec-side predicate: the time-window rule (rule 1 of the checker) fires —
a window is present and the candidate starts before it or its wrapped end
exceeds it. -/
def window_rule_violated (activity : Activity) (start_time : Nat) : Bool :=
  match activity.time_window_start, activity.time_window_end with
  | some ws, some we =>
    decide (start_time < ws) ||
      decide (we < add_minutes_to_time start_time activity.duration_minutes)
  | _, _ => false

/-- Spec-side description of the checker's evaluation order: the kinds of the
five rules, each evaluated independently, in the spec's fixed order
`time_window, overlap, specialist, equipment, travel`. -/
def violatedKinds (c : ConstraintChecker) (activity : Activity)
    (date start_time : Nat) (booked_slots : List TimeSlot) : List ViolationKind :=
  (if window_rule_violated activity start_time then [ViolationKind.time_window] else []) ++
  (if (check_overlap activity date start_time booked_slots).isSome then
    [ViolationKind.overlap] else []) ++
  (if (check_specialist c activity date start_time).isSome then
    [ViolationKind.specialist] else []) ++
  (if (check_equipment c activity date start_time booked_slots).isSome then
    [ViolationKind.equipment] else []) ++
  (if (check_travel c activity date).isSome then [ViolationKind.travel] else [])

/-- Spec-side predicate: an existing slot on the candidate's date whose
(wrapped) half-open interval intersects the candidate's, with no condition
whatsoever on shared specialists or equipment. -/
def overlaps_existing (activity : Activity) (date start_time : Nat)
    (slot : TimeSlot) : Bool :=
  slot.date == date &&
    decide (start_time < add_minutes_to_time slot.start_time slot.duration_minutes) &&
    decide (slot.start_time < add_minutes_to_time start_time activity.duration_minutes)

/-- Spec-side selection rule: the first list element attaining the maximal
score (ties keep the earliest generation order). -/
def firstMaxSlot (l : List (ℚ × Nat × Nat)) : Option (ℚ × Nat × Nat) :=
  l.foldl (fun best x =>
    match best with
    | none => some x
    | some m => some (if m.1 < x.1 then x else m)) none

/-- A daily frequency (count 1, no preferred days, no interval). -/
def dailyFreq : Frequency :=
  ⟨FrequencyPattern.daily, 1, none, none⟩

/-- Scenario S1, activity P1: daily, priority 1, window 08:00–09:00
(minutes 480–540), 30 minutes, no resources. -/
def actP1 : Activity :=
  ⟨"P1", 1, dailyFreq, 30, some 480, some 540, none, [], false⟩

/-- Scenario S1, activity P2: daily, priority 2, same window and duration. -/
def actP2 : Activity :=
  ⟨"P2", 2, dailyFreq, 30, some 480, some 540, none, [], false⟩

/-- Scenario S1 scheduler: start 2025-12-09 (a Tuesday; day number 8 in the
Monday-epoch convention, 8 % 7 = 1), duration 7 days, no resources. -/
def gS1 : GreedyScheduler :=
  newScheduler [actP1, actP2] [] [] [] 8 7

/-- Midnight-wrap probe activity: daily, window 23:00–23:50 (1380–1430),
duration 60 minutes — the window cannot really hold it. -/
def actWrap : Activity :=
  ⟨"A", 1, dailyFreq, 60, some 1380, some 1430, none, [], false⟩

/-- One-day scheduler for the midnight-wrap probe. -/
def gWrap : GreedyScheduler :=
  newScheduler [actWrap] [] [] [] 8 1

/-- Double-booking probe, first activity: daily, priority 1, window
22:00–23:50 (1320–1430), duration 120 minutes. -/
def actDupA : Activity :=
  ⟨"actA", 1, dailyFreq, 120, some 1320, some 1430, none, [], false⟩

/-- Double-booking probe, second activity: same shape, priority 2. -/
def actDupB : Activity :=
  ⟨"actB", 2, dailyFreq, 120, some 1320, some 1430, none, [], false⟩

/-- One-day scheduler for the double-booking probe. -/
def gDup : GreedyScheduler :=
  newScheduler [actDupA, actDupB] [] [] [] 8 1

/-- Backfill probe, first activity: daily, priority 1, window 08:00–08:30
(480–510), 30 minutes — exactly one candidate time per day. -/
def actBf1 : Activity :=
  ⟨"B1", 1, dailyFreq, 30, some 480, some 510, none, [], false⟩

/-- Backfill probe, second activity: same shape, priority 2 — every candidate
collides with the first activity's booking. -/
def actBf2 : Activity :=
  ⟨"B2", 2, dailyFreq, 30, some 480, some 510, none, [], false⟩

/-- One-day scheduler for the backfill probe. -/
def gBf : GreedyScheduler :=
  newScheduler [actBf1, actBf2] [] [] [] 8 1

/-- Resource-free activity for the overlap counterexample: no window, no
specialist, no equipment. -/
def actFree : Activity :=
  ⟨"X", 3, dailyFreq, 30, none, none, none, [], false⟩

/-- Resource-free booked slot for the overlap counterexample. -/
def slotFree : TimeSlot :=
  ⟨"Y", 5, 100, 30, none, []⟩

/-- Checker with empty resource tables. -/
def emptyChecker : ConstraintChecker :=
  ⟨[], [], []⟩

/-- Single activity used to witness the occurrence bound. -/
def actSolo : Activity :=
  ⟨"W", 1, dailyFreq, 30, some 480, some 540, none, [], false⟩

/-- Single-activity scheduler used to witness the occurrence bound. -/
def gSolo : GreedyScheduler :=
  newScheduler [actSolo] [] [] [] 8 2

attribute [local semireducible] Rat.sub Rat.add Rat.mul Rat.inv

set_option maxRecDepth 10000

/-- C1 counterexample: `check_time_slot` reports an `overlap` violation for a
candidate of a resource-free activity against a booked slot that shares no
specialist and no equipment with it — refuting the claim that an overlap
violation arises only when a specialist or equipment id is shared. -/
theorem c1_counterexample_resource_free_overlap :
    check_time_slot emptyChecker actFree 5 110 [slotFree] =
      some ⟨ViolationKind.overlap, "X", 5, 110⟩ ∧
    actFree.specialist_id = none ∧ actFree.equipment_ids = [] ∧
    slotFree.specialist_id = none ∧ slotFree.equipment_ids = [] := by
  decide

/-- C2 counterexample: in scenario S1 (start 2025-12-09, 7 days, P1/P2 daily
in the 08:00–09:00 window, 30 minutes, no resources) the engine books P2 seven
times, not zero as the claim states — P1 takes the window midpoint 08:30, so
08:00 stays free for P2. -/
theorem c2_counterexample_p2_booked :
    get_occurrence_count (schedule gS1) "P2" = 7 := by
  decide

/-- C2 (amended): in scenario S1 the engine books P1 seven times (always at
08:30, minute 510), books P2 seven times (always at 08:00, minute 480), and
records 7 failure attempts for P2, every one of kind `overlap`. -/
theorem c2_s1_schedule_on_the_code :
    get_occurrence_count (schedule gS1) "P1" = 7 ∧
    get_occurrence_count (schedule gS1) "P2" = 7 ∧
    failAttempts (schedule gS1) "P2" = 7 ∧
    (failViolations (schedule gS1) "P2").all
      (fun v => v.constraint_type == ViolationKind.overlap) = true ∧
    ((schedule gS1).booked_slots.filter (fun s => s.activity_id == "P1")).map
      (·.start_time) = [510, 510, 510, 510, 510, 510, 510] ∧
    ((schedule gS1).booked_slots.filter (fun s => s.activity_id == "P2")).map
      (·.start_time) = [480, 480, 480, 480, 480, 480, 480] := by
  decide

/-- C3 refutation (code bug): for a daily activity with window 23:00–23:50 and
duration 60 the engine books 23:30, whose start plus duration (1470) exceeds
the window end (1430) in real minute arithmetic — the wrapped end-of-day
arithmetic masks the overflow instead of rejecting it as a time-window
violation. -/
theorem c3_code_bug_midnight_wrap :
    (schedule gWrap).booked_slots = [⟨"A", 8, 1410, 60, none, []⟩] ∧
    actWrap.time_window_start = some 1380 ∧
    actWrap.time_window_end = some 1430 ∧
    1430 < 1410 + 60 := by
  decide

/-- C4 counterexample: after Phase 1, activity B2 has 1 recorded attempt and 0
bookings out of 1 required; Phase 2 then evaluates exactly the candidate
(day 8, 08:00) on the only light day, the checker rejects it, yet the final
attempts counter is still 1 — the backfill pass records no failures. -/
theorem c4_counterexample_backfill_silent :
    failAttempts (runPhase1 gBf).1 "B2" = 1 ∧
    get_occurrence_count (runPhase1 gBf).1 "B2" = 0 ∧
    calculate_required_occurrences gBf actBf2 = 1 ∧
    find_light_days gBf (runPhase1 gBf).1 15 = [8] ∧
    generate_times_for_date actBf2 8 = [(8, 480)] ∧
    (check_time_slot gBf.checker actBf2 8 480 (runPhase1 gBf).1.booked_slots).isSome = true ∧
    failAttempts (schedule gBf) "B2" = 1 := by
  decide

/-- C10 refutation (code bug): two resource-free daily activities with window
22:00–23:50 and duration 120 are both booked on the same date at the same
start time 23:00 — their real intervals [1380, 1500) coincide, so same-date
bookings are not pairwise disjoint; the wrapped overlap comparison
(end = (1380+120) % 1440 = 60) fails to detect the collision. -/
theorem c10_code_bug_double_booking :
    (schedule gDup).booked_slots =
      [⟨"actA", 8, 1380, 120, none, []⟩, ⟨"actB", 8, 1380, 120, none, []⟩] ∧
    ¬ (1380 + 120 ≤ 1380 ∨ 1380 + 120 ≤ 1380) := by
  decide

/-- Every value produced by `findSome?` satisfies any property enjoyed by all
outputs of the scanned function. -/
theorem findSome?_forall {α β : Type} {f : α → Option β} {P : β → Prop}
    (h : ∀ x b, f x = some b → P b) :
    ∀ {l : List α} {b : β}, l.findSome? f = some b → P b := by
  intro l
  induction l with
  | nil => intro b hb; simp [List.findSome?] at hb
  | cons x xs ih =>
    intro b hb
    rw [List.findSome?_cons] at hb
    cases hfx : f x with
    | some w =>
      rw [hfx] at hb
      exact (Option.some.injEq _ _ ▸ hb : w = b) ▸ h x w hfx
    | none =>
      rw [hfx] at hb
      exact ih hb

/-- `_check_overlap` only ever emits violations of kind `overlap`. -/
theorem check_overlap_kind {activity : Activity} {date start_time : Nat}
    {booked_slots : List TimeSlot} {v : ConstraintViolation}
    (h : check_overlap activity date start_time booked_slots = some v) :
    v.constraint_type = ViolationKind.overlap := by
  induction booked_slots with
  | nil => cases h
  | cons s rest ih =>
    unfold check_overlap at h
    split at h
    · split at h
      · cases h; rfl
      · exact ih h
    · exact ih h

/-- `_check_travel` only ever emits violations of kind `travel`. -/
theorem check_travel_kind {c : ConstraintChecker} {activity : Activity}
    {date : Nat} {v : ConstraintViolation}
    (h : check_travel c activity date = some v) :
    v.constraint_type = ViolationKind.travel := by
  unfold check_travel at h
  refine findSome?_forall (P := fun w => w.constraint_type = ViolationKind.travel)
    ?_ h
  intro travel w hw
  split at hw
  · split at hw
    · cases hw; rfl
    · cases hw
  · cases hw

/-- `_check_specialist` only ever emits violations of kind `specialist`. -/
theorem check_specialist_kind {c : ConstraintChecker} {activity : Activity}
    {date start_time : Nat} {v : ConstraintViolation}
    (h : check_specialist c activity date start_time = some v) :
    v.constraint_type = ViolationKind.specialist := by
  unfold check_specialist at h
  split at h
  · cases h
  · split at h
    · cases h; rfl
    · split at h
      · cases h; rfl
      · dsimp only at h
        split at h
        · cases h; rfl
        · split at h
          · cases h
          · cases h; rfl

/-- Each step of the equipment loop only ever emits violations of kind
`equipment`. -/
theorem check_equipment_one_kind {c : ConstraintChecker} {activity : Activity}
    {date start_time : Nat} {booked_slots : List TimeSlot} {eid : String}
    {v : ConstraintViolation}
    (h : check_equipment_one c activity date start_time booked_slots eid = some v) :
    v.constraint_type = ViolationKind.equipment := by
  unfold check_equipment_one at h
  dsimp only at h
  split at h
  · cases h; rfl
  · split at h
    · rename_i w hw
      cases h
      refine findSome?_forall (P := fun w => w.constraint_type = ViolationKind.equipment)
        ?_ hw
      intro window b hb
      split at hb
      · split at hb <;> first | (cases hb; rfl) | cases hb | skip
        split at hb
        · cases hb; rfl
        · cases hb
      · cases hb
    · split at h
      · cases h; rfl
      · cases h

/-- `_check_equipment` only ever emits violations of kind `equipment`. -/
theorem check_equipment_kind {c : ConstraintChecker} {activity : Activity}
    {date start_time : Nat} {booked_slots : List TimeSlot} {v : ConstraintViolation}
    (h : check_equipment c activity date start_time booked_slots = some v) :
    v.constraint_type = ViolationKind.equipment := by
  unfold check_equipment at h
  exact findSome?_forall (P := fun w => w.constraint_type = ViolationKind.equipment)
    (fun x b hb => check_equipment_one_kind hb) h

/-- The specialist guard of `check_time_slot` is redundant in the embedding:
`check_specialist` already returns `none` for a missing specialist id. -/
theorem specialist_guard_eq (c : ConstraintChecker) (activity : Activity)
    (date start_time : Nat) :
    (if activity.specialist_id.isSome then check_specialist c activity date start_time
      else none) = check_specialist c activity date start_time := by
  cases hs : activity.specialist_id with
  | none => simp [hs, check_specialist]
  | some sid => simp [hs]

/-- The equipment guard of `check_time_slot` is redundant in the embedding:
`check_equipment` on an empty id list returns `none`. -/
theorem equipment_guard_eq (c : ConstraintChecker) (activity : Activity)
    (date start_time : Nat) (booked_slots : List TimeSlot) :
    (if activity.equipment_ids.isEmpty then none
      else check_equipment c activity date start_time booked_slots) =
      check_equipment c activity date start_time booked_slots := by
  cases he : activity.equipment_ids with
  | nil => simp [he, check_equipment, List.findSome?]
  | cons x xs => simp [he]

/-- The rules after the time-window rule report the first firing kind among
`overlap, specialist, equipment, travel`, each rule evaluated independently. -/
theorem check_after_window_kinds (c : ConstraintChecker) (activity : Activity)
    (date start_time : Nat) (booked_slots : List TimeSlot) :
    (check_after_window c activity date start_time booked_slots).map (·.constraint_type) =
    ((if (check_overlap activity date start_time booked_slots).isSome then
        [ViolationKind.overlap] else []) ++
      (if (check_specialist c activity date start_time).isSome then
        [ViolationKind.specialist] else []) ++
      (if (check_equipment c activity date start_time booked_slots).isSome then
        [ViolationKind.equipment] else []) ++
      (if (check_travel c activity date).isSome then
        [ViolationKind.travel] else [])).head? := by
  unfold check_after_window
  rw [specialist_guard_eq, equipment_guard_eq]
  cases ho : check_overlap activity date start_time booked_slots with
  | some v => simp [check_overlap_kind ho]
  | none =>
    cases hs : check_specialist c activity date start_time with
    | some v => simp [check_specialist_kind hs]
    | none =>
      cases he : check_equipment c activity date start_time booked_slots with
      | some v => simp [check_equipment_kind he]
      | none =>
        cases ht : check_travel c activity date with
        | some v => simp [check_travel_kind ht]
        | none => simp

/-- `check_time_slot` reports the first firing kind in the fixed order
`time_window, overlap, specialist, equipment, travel`. -/
theorem check_time_slot_kinds (c : ConstraintChecker) (activity : Activity)
    (date start_time : Nat) (booked_slots : List TimeSlot) :
    (check_time_slot c activity date start_time booked_slots).map (·.constraint_type) =
      (violatedKinds c activity date start_time booked_slots).head? := by
  unfold check_time_slot violatedKinds window_rule_violated
  cases hws : activity.time_window_start with
  | none =>
    simpa using check_after_window_kinds c activity date start_time booked_slots
  | some ws =>
    cases hwe : activity.time_window_end with
    | none =>
      simpa using check_after_window_kinds c activity date start_time booked_slots
    | some we =>
      by_cases hc : (decide (start_time < ws) ||
          decide (we < add_minutes_to_time start_time activity.duration_minutes)) = true
      · simp [hc]
      · rw [Bool.not_eq_true] at hc
        simpa [hc] using check_after_window_kinds c activity date start_time booked_slots

/-- `_check_overlap` fires exactly when some booked slot on the same date has
a (wrapped) interval intersection with the candidate. -/
theorem check_overlap_isSome (activity : Activity) (date start_time : Nat)
    (booked_slots : List TimeSlot) :
    (check_overlap activity date start_time booked_slots).isSome =
      booked_slots.any (overlaps_existing activity date start_time) := by
  induction booked_slots with
  | nil => rfl
  | cons s rest ih =>
    unfold check_overlap
    rw [List.any_cons]
    by_cases h1 : (s.date == date) = true
    · rw [if_pos h1]
      by_cases h2 : (decide (start_time < add_minutes_to_time s.start_time s.duration_minutes) &&
          decide (s.start_time < add_minutes_to_time start_time activity.duration_minutes)) = true
      · rw [if_pos h2]
        simp [overlaps_existing, h1, h2, Bool.and_assoc]
      · rw [Bool.not_eq_true] at h2
        rw [if_neg (by simp [h2]), ih]
        simp [overlaps_existing, h1, h2, Bool.and_assoc]
    · rw [Bool.not_eq_true] at h1
      rw [if_neg (by simp [h1]), ih]
      simp [overlaps_existing, h1]

/-- C5: for every activity, date, start time and booking list, check_time_slot
returns the first violation in the fixed evaluation order time_window, overlap,
specialist, equipment, travel — the returned kind is the head of the list of
independently violated rules in that order, and the result is None exactly when
that list is empty (no rule is violated). -/
theorem c5_first_violation_order :
    ∀ (c : ConstraintChecker) (a : Activity) (d t : Nat) (bs : List TimeSlot),
      (check_time_slot c a d t bs).map (·.constraint_type) =
        (violatedKinds c a d t bs).head? ∧
      (check_time_slot c a d t bs).isNone = (violatedKinds c a d t bs).isEmpty := by
  intro c a d t bs
  refine ⟨check_time_slot_kinds c a d t bs, ?_⟩
  have h := check_time_slot_kinds c a d t bs
  cases hk : check_time_slot c a d t bs with
  | none =>
    rw [hk] at h
    cases hvk : violatedKinds c a d t bs with
    | nil => rfl
    | cons k ks => rw [hvk] at h; simp at h
  | some v =>
    rw [hk] at h
    cases hvk : violatedKinds c a d t bs with
    | nil => rw [hvk] at h; simp at h
    | cons k ks => rfl

/-- C1 (amended): check_time_slot returns an overlap violation iff the
time-window rule passes and some existing booking on the same date has an
overlapping (wrapped) half-open interval with the candidate — with no
condition whatsoever on sharing a specialist or equipment id. -/
theorem c1_overlap_is_resource_blind :
    ∀ (c : ConstraintChecker) (a : Activity) (d t : Nat) (bs : List TimeSlot),
      ((check_time_slot c a d t bs).map (·.constraint_type) ==
          some ViolationKind.overlap) =
        (!window_rule_violated a t && bs.any (overlaps_existing a d t)) := by
  intro c a d t bs
  rw [show bs.any (overlaps_existing a d t) = (check_overlap a d t bs).isSome from
    (check_overlap_isSome a d t bs).symm]
  rw [check_time_slot_kinds]
  unfold violatedKinds
  cases hw : window_rule_violated a t <;>
    cases ho : (check_overlap a d t bs).isSome <;>
    cases hs : (check_specialist c a d t).isSome <;>
    cases he : (check_equipment c a d t bs).isSome <;>
    cases ht : (check_travel c a d).isSome <;>
    simp

/-- C6: required_occurrences equals duration_days for Daily,
(duration_days // 7) * count for Weekly, (duration_days // 30) * count for
Monthly, duration_days // interval_days for Custom with interval_days set
(nonzero, as validation guarantees), and count when interval_days is absent. -/
theorem c6_required_occurrences :
    ∀ (g : GreedyScheduler) (a : Activity),
      (a.frequency.pattern = FrequencyPattern.daily →
        calculate_required_occurrences g a = g.duration_days) ∧
      (a.frequency.pattern = FrequencyPattern.weekly →
        calculate_required_occurrences g a = (g.duration_days / 7) * a.frequency.count) ∧
      (a.frequency.pattern = FrequencyPattern.monthly →
        calculate_required_occurrences g a = (g.duration_days / 30) * a.frequency.count) ∧
      (∀ k : Nat, a.frequency.pattern = FrequencyPattern.custom →
        a.frequency.interval_days = some k → k ≠ 0 →
        calculate_required_occurrences g a = g.duration_days / k) ∧
      (a.frequency.pattern = FrequencyPattern.custom →
        a.frequency.interval_days = none →
        calculate_required_occurrences g a = a.frequency.count) := by
  intro g a
  unfold calculate_required_occurrences
  refine ⟨?_, ?_, ?_, ?_, ?_⟩
  · intro h; rw [h]
  · intro h; rw [h]
  · intro h; rw [h]
  · intro k h hk hknz; rw [h, hk]; simp [hknz]
  · intro h hk; rw [h, hk]

/-- Witness for C6 at concrete activities of every pattern: a 14-day horizon
gives 14 daily, 6 weekly (2 weeks × count 3); a 90-day horizon gives 6 monthly
(3 months × count 2), 12 custom with a 7-day interval, and the count fallback
4 for custom without an interval. -/
theorem c6_required_occurrences_witness :
    calculate_required_occurrences (newScheduler [] [] [] [] 0 14) actP1 = 14 ∧
    calculate_required_occurrences (newScheduler [] [] [] [] 0 14)
      ⟨"w", 1, ⟨FrequencyPattern.weekly, 3, none, none⟩, 30, none, none, none, [], false⟩ = 6 ∧
    calculate_required_occurrences (newScheduler [] [] [] [] 0 90)
      ⟨"m", 1, ⟨FrequencyPattern.monthly, 2, none, none⟩, 30, none, none, none, [], false⟩ = 6 ∧
    calculate_required_occurrences (newScheduler [] [] [] [] 0 90)
      ⟨"c", 1, ⟨FrequencyPattern.custom, 1, none, some 7⟩, 30, none, none, none, [], false⟩ = 12 ∧
    calculate_required_occurrences (newScheduler [] [] [] [] 0 90)
      ⟨"c2", 5, ⟨FrequencyPattern.custom, 4, none, none⟩, 30, none, none, none, [], false⟩ = 4 :=
  ⟨((c6_required_occurrences _ actP1).1 rfl).trans rfl,
   ((c6_required_occurrences _ _).2.1 rfl).trans (by decide),
   ((c6_required_occurrences _ _).2.2.1 rfl).trans (by decide),
   ((c6_required_occurrences _ _).2.2.2.1 7 rfl rfl (by decide)).trans (by decide),
   ((c6_required_occurrences _ _).2.2.2.2 rfl rfl).trans rfl⟩

/-- Source `max` on rationals agrees with the order-theoretic `max`. -/
theorem ratMax_eq_max (a b : ℚ) : ratMax a b = max a b := by
  unfold ratMax
  rw [max_def]

/-- Source `min` on rationals agrees with the order-theoretic `min`. -/
theorem ratMin_eq_min (a b : ℚ) : ratMin a b = min a b := by
  unfold ratMin
  rw [min_def]

/-- Source `abs` on rationals agrees with the order-theoretic `|·|`. -/
theorem ratAbs_eq_abs (a : ℚ) : ratAbs a = |a| := by
  unfold ratAbs
  split
  · rw [abs_of_neg]; assumption
  · rw [abs_of_nonneg (le_of_not_lt (by assumption))]

/-- C9: score_slot always lies in [0, 10]; with a time window (validated
start < end) the time-preference component is
max(5, 10 − 20·(pos − 0.5)²) for pos = (start − window_start)/(window_end −
window_start); without a window it is the fixed band 8/7/6/4 by hour. -/
theorem c9_score_range_and_time_preference :
    (∀ (sc : SlotScorer) (a : Activity) (d t : Nat) (bs : List TimeSlot),
      0 ≤ score_slot sc a d t bs ∧ score_slot sc a d t bs ≤ 10) ∧
    (∀ (a : Activity) (t ws we : Nat),
      a.time_window_start = some ws → a.time_window_end = some we → ws < we →
      score_time_preference a t =
        max 5 (10 - 20 * (((t : ℚ) - (ws : ℚ)) / ((we : ℚ) - (ws : ℚ)) - 1/2) ^ 2)) ∧
    (∀ (a : Activity) (t : Nat),
      a.time_window_start = none ∨ a.time_window_end = none →
      score_time_preference a t =
        if 6 ≤ t / 60 ∧ t / 60 < 9 then 8
        else if 9 ≤ t / 60 ∧ t / 60 < 17 then 7
        else if 17 ≤ t / 60 ∧ t / 60 < 20 then 6
        else 4) := by
  refine ⟨?_, ?_, ?_⟩
  · intro sc a d t bs
    unfold score_slot
    rw [ratMax_eq_max, ratMin_eq_min]
    exact ⟨le_max_left 0 _, max_le (by norm_num) (min_le_left 10 _)⟩
  · intro a t ws we h1 h2 hlt
    unfold score_time_preference
    rw [h1, h2]
    dsimp only
    rw [if_neg (by omega), ratMax_eq_max, ratAbs_eq_abs, sq_abs]
  · intro a t h
    unfold score_time_preference
    rcases h with h | h
    · rw [h]
    · rw [h]
      cases h1 : a.time_window_start <;> rfl

/-- Witness for C9 at concrete inputs: a windowless slot at 06:40 scores within
[0, 10]; P1's window 480–540 at start 510 matches the parabolic formula; the
band formula applies at 06:40 (hour 6). -/
theorem c9_score_range_and_time_preference_witness :
    (0 ≤ score_slot initScorer actFree 0 400 [] ∧
      score_slot initScorer actFree 0 400 [] ≤ 10) ∧
    score_time_preference actP1 510 =
      max 5 (10 - 20 * ((((510 : Nat) : ℚ) - ((480 : Nat) : ℚ)) /
        (((540 : Nat) : ℚ) - ((480 : Nat) : ℚ)) - 1/2) ^ 2) ∧
    score_time_preference actFree 400 =
      (if 6 ≤ 400 / 60 ∧ 400 / 60 < 9 then (8 : ℚ)
       else if 9 ≤ 400 / 60 ∧ 400 / 60 < 17 then 7
       else if 17 ≤ 400 / 60 ∧ 400 / 60 < 20 then 6
       else 4) :=
  ⟨c9_score_range_and_time_preference.1 initScorer actFree 0 400 [],
   c9_score_range_and_time_preference.2.1 actP1 510 480 540 rfl rfl (by decide),
   c9_score_range_and_time_preference.2.2 actFree 400 (Or.inl rfl)⟩

/-- Head of a stable insertion: the incoming element takes the front exactly
when the comparator does not keep the current head before it. -/
theorem stableInsertBy_head {α : Type} (le : α → α → Bool) (x : α) (l : List α) :
    (stableInsertBy le x l).head? =
      some (match l with | [] => x | y :: _ => if le y x then y else x) := by
  cases l with
  | nil => rfl
  | cons y ys =>
    by_cases h : le y x = true
    · simp [stableInsertBy, h]
    · simp [stableInsertBy, h]

/-- Head of the stable descending sort, computed by a left fold that keeps the
earlier element on ties (strict comparison). -/
theorem pySortDesc_head_aux :
    ∀ (l acc : List (ℚ × Nat × Nat)),
      (l.foldl (fun acc x => stableInsertBy (fun y x => decide (x.1 ≤ y.1)) x acc)
          acc).head? =
      l.foldl (fun best x =>
        match best with
        | none => some x
        | some m => some (if m.1 < x.1 then x else m)) acc.head? := by
  intro l
  induction l with
  | nil => intro acc; rfl
  | cons x xs ih =>
    intro acc
    rw [List.foldl_cons, List.foldl_cons, ih, stableInsertBy_head]
    cases acc with
    | nil => rfl
    | cons y ys =>
      dsimp only [List.head?]
      congr 1
      by_cases h : x.1 ≤ y.1
      · rw [if_pos (decide_eq_true h), if_neg (not_lt.mpr h)]
      · rw [if_neg (by simpa using h), if_pos (lt_of_not_le h)]

/-- The head of the source's `sort(reverse=True)` equals the spec-side "first
element attaining the maximal score". -/
theorem pySortDesc_head (l : List (ℚ × Nat × Nat)) :
    (pySortDesc l).head? = firstMaxSlot l := by
  unfold pySortDesc pyStableSortBy firstMaxSlot
  exact pySortDesc_head_aux l []

/-- The element selected by the first-max fold dominates the accumulator and
every scanned element. -/
theorem firstMaxSlot_aux :
    ∀ (l : List (ℚ × Nat × Nat)) (o : Option (ℚ × Nat × Nat)) (x : ℚ × Nat × Nat),
      l.foldl (fun best x =>
        match best with
        | none => some x
        | some m => some (if m.1 < x.1 then x else m)) o = some x →
      (∀ m, o = some m → m.1 ≤ x.1) ∧ (∀ y ∈ l, y.1 ≤ x.1) := by
  intro l
  induction l with
  | nil =>
    intro o x h
    refine ⟨?_, by simp⟩
    intro m hm
    rw [hm] at h
    cases h
    exact le_refl _
  | cons z zs ih =>
    intro o x h
    rw [List.foldl_cons] at h
    cases o with
    | none =>
      dsimp only at h
      obtain ⟨h1, h2⟩ := ih (some z) x h
      refine ⟨?_, ?_⟩
      · intro m hm
        cases hm
      intro y hy
      rcases List.mem_cons.mp hy with rfl | hy'
      · exact h1 _ rfl
      · exact h2 y hy'
    | some m =>
      dsimp only at h
      obtain ⟨h1, h2⟩ := ih _ x h
      constructor
      · intro m2 hm2
        cases hm2
        by_cases hlt : m.1 < z.1
        · have hx := h1 (if m.1 < z.1 then z else m) rfl
          rw [if_pos hlt] at hx
          exact le_trans (le_of_lt hlt) hx
        · have hx := h1 (if m.1 < z.1 then z else m) rfl
          rw [if_neg hlt] at hx
          exact hx
      · intro y hy
        rcases List.mem_cons.mp hy with rfl | hy'
        · by_cases hlt : m.1 < y.1
          · have hx := h1 (if m.1 < y.1 then y else m) rfl
            rw [if_pos hlt] at hx
            exact hx
          · have hx := h1 (if m.1 < y.1 then y else m) rfl
            rw [if_neg hlt] at hx
            exact le_trans (le_of_not_lt hlt) hx
        · exact h2 y hy'

/-- C8: the engine is deterministic — two schedulers constructed from identical
input vectors produce equal schedules (the embedding is a pure function of its
inputs) — and the candidate selection used by both phases is the deterministic
tie-break of the spec: the head of the stable descending sort is the first
candidate in generation order attaining the maximal score, and that score
dominates every scored candidate. -/
theorem c8_determinism_and_tiebreak :
    (∀ (activities : List Activity) (specialists : List Specialist)
        (equipment : List Equipment) (travel_periods : List TravelPeriod)
        (start_date duration_days : Nat),
      schedule (newScheduler activities specialists equipment travel_periods
          start_date duration_days) =
        schedule (newScheduler activities specialists equipment travel_periods
          start_date duration_days)) ∧
    (∀ l : List (ℚ × Nat × Nat), (pySortDesc l).head? = firstMaxSlot l) ∧
    (∀ (l : List (ℚ × Nat × Nat)) (x : ℚ × Nat × Nat),
      firstMaxSlot l = some x → ∀ y ∈ l, y.1 ≤ x.1) := by
  refine ⟨fun _ _ _ _ _ _ => rfl, pySortDesc_head, ?_⟩
  intro l x h
  exact (firstMaxSlot_aux l none x h).2

/-- Witness for C8: among scored candidates (5, 10, 10) in generation order,
the selection picks the earliest candidate with score 10, and every listed
score is dominated by the selected one. -/
theorem c8_determinism_and_tiebreak_witness :
    (pySortDesc [(5, 0, 480), (10, 0, 510), (10, 0, 540)]).head? =
      some (10, 0, 510) ∧
    ((5, 0, 480) : ℚ × Nat × Nat).1 ≤ ((10, 0, 510) : ℚ × Nat × Nat).1 := by
  constructor
  · rw [c8_determinism_and_tiebreak.2.1]
    decide
  · exact c8_determinism_and_tiebreak.2.2
      [(5, 0, 480), (10, 0, 510), (10, 0, 540)] (10, 0, 510) (by decide)
      (5, 0, 480) (by decide)

/-- Lookup after appending one entry to an association list. -/
theorem alistGet_append {β : Type} (l : List (String × β)) (k k2 : String) (b : β) :
    alistGet (l ++ [(k2, b)]) k =
      (alistGet l k).or (if k2 == k then some b else none) := by
  unfold alistGet
  rw [List.find?_append]
  cases h : l.find? (fun p => p.1 == k) with
  | some p => simp [h]
  | none =>
    by_cases hk : (k2 == k) = true
    · simp [h, List.find?_cons_of_pos _ hk, hk]
    · rw [Bool.not_eq_true] at hk
      simp [h, List.find?_cons_of_neg, hk]

/-- Lookup after a value-updating map that touches only entries with the given
key (keys themselves are preserved). -/
theorem find?_cons_eq {α : Type} (p : α → Bool) (a : α) (l : List α) :
    List.find? p (a :: l) = if p a then some a else List.find? p l := by
  by_cases h : p a = true
  · rw [List.find?_cons_of_pos _ h, if_pos h]
  · rw [Bool.not_eq_true] at h
    rw [List.find?_cons_of_neg _ (by simp [h]), if_neg (by simp [h])]

/-- Lookup after a value-updating map that touches only entries with the given
key (keys themselves are preserved). -/
theorem alistGet_map_update {β : Type} (l : List (String × β)) (k key : String)
    (f : β → β) :
    alistGet (l.map (fun p => if p.1 == key then (p.1, f p.2) else p)) k =
      if k == key then (alistGet l k).map f else alistGet l k := by
  induction l with
  | nil => cases h : (k == key) <;> simp [alistGet, h]
  | cons p l ih =>
    rw [List.map_cons]
    unfold alistGet at ih ⊢
    by_cases h1 : (p.1 == key) = true
    · by_cases h2 : (p.1 == k) = true
      · have hkey : (k == key) = true :=
          beq_iff_eq.mpr ((eq_of_beq h2) ▸ (eq_of_beq h1))
        rw [find?_cons_eq, find?_cons_eq]
        simp [h1, h2, hkey]
      · rw [find?_cons_eq, find?_cons_eq]
        simpa [h1, h2] using ih
    · by_cases h2 : (p.1 == k) = true
      · have hkey : (k == key) = false := by
          rw [Bool.eq_false_iff]
          intro hc
          exact absurd (beq_iff_eq.mpr ((eq_of_beq h2).trans (eq_of_beq hc))) h1
        rw [find?_cons_eq, find?_cons_eq]
        simp [h1, h2, hkey]
      · rw [find?_cons_eq, find?_cons_eq]
        simpa [h1, h2] using ih

/-- `record_failure` increments the activity's attempt counter by one and
appends the violation to its log, in both the fresh-entry and the
existing-entry branch. -/
theorem failAttempts_record_failure (s : SchedulerState) (a : Activity)
    (v : ConstraintViolation) :
    failAttempts (record_failure s a v) a.id = failAttempts s a.id + 1 ∧
    failViolations (record_failure s a v) a.id = failViolations s a.id ++ [v] := by
  unfold record_failure failAttempts failViolations
  cases h : alistGet s.failed_activities a.id with
  | none =>
    simp only [h]
    rw [alistGet_append, h]
    simp
  | some att =>
    simp only [h]
    rw [alistGet_map_update s.failed_activities a.id a.id (updAttempt v), h]
    simp [updAttempt]

/-- `record_failure` leaves the booked-slot log unchanged. -/
theorem record_failure_booked (s : SchedulerState) (a : Activity)
    (v : ConstraintViolation) :
    (record_failure s a v).booked_slots = s.booked_slots := rfl

/-- `record_failure` leaves the occurrence counters unchanged. -/
theorem record_failure_occ (s : SchedulerState) (a : Activity)
    (v : ConstraintViolation) :
    (record_failure s a v).activity_occurrences = s.activity_occurrences := rfl

/-- `add_booking` leaves the failure map unchanged. -/
theorem add_booking_failed (s : SchedulerState) (slot : TimeSlot) :
    (add_booking s slot).failed_activities = s.failed_activities := rfl

/-- The candidate-evaluation loop of Phase 1 never changes the booked slots. -/
theorem evalCandidates_booked (g : GreedyScheduler) (a : Activity) (sc : SlotScorer) :
    ∀ (cands : List (Nat × Nat)) (s : SchedulerState) (acc : List (ℚ × Nat × Nat)),
      (evalCandidates g a sc cands s acc).2.booked_slots = s.booked_slots := by
  intro cands
  induction cands with
  | nil => intro s acc; rfl
  | cons c rest ih =>
    intro s acc
    obtain ⟨d, t⟩ := c
    unfold evalCandidates
    cases h : check_time_slot g.checker a d t s.booked_slots with
    | none => simp only [h]; exact ih s _
    | some v => simp only [h]; rw [ih]; rfl

/-- The candidate-evaluation loop of Phase 1 never changes the occurrence
counters. -/
theorem evalCandidates_occ (g : GreedyScheduler) (a : Activity) (sc : SlotScorer) :
    ∀ (cands : List (Nat × Nat)) (s : SchedulerState) (acc : List (ℚ × Nat × Nat)),
      (evalCandidates g a sc cands s acc).2.activity_occurrences =
        s.activity_occurrences := by
  intro cands
  induction cands with
  | nil => intro s acc; rfl
  | cons c rest ih =>
    intro s acc
    obtain ⟨d, t⟩ := c
    unfold evalCandidates
    cases h : check_time_slot g.checker a d t s.booked_slots with
    | none => simp only [h]; exact ih s _
    | some v => simp only [h]; rw [ih]; rfl

/-- Phase-1 candidate evaluation records exactly the rejected candidates: the
attempts counter grows by their number and the violation log by their
violations, in order. -/
theorem evalCandidates_failures (g : GreedyScheduler) (a : Activity) (sc : SlotScorer) :
    ∀ (cands : List (Nat × Nat)) (s : SchedulerState) (acc : List (ℚ × Nat × Nat)),
      failAttempts (evalCandidates g a sc cands s acc).2 a.id =
        failAttempts s a.id +
          cands.countP (fun cand =>
            (check_time_slot g.checker a cand.1 cand.2 s.booked_slots).isSome) ∧
      failViolations (evalCandidates g a sc cands s acc).2 a.id =
        failViolations s a.id ++
          cands.filterMap (fun cand =>
            check_time_slot g.checker a cand.1 cand.2 s.booked_slots) := by
  intro cands
  induction cands with
  | nil => intro s acc; simp [evalCandidates]
  | cons c rest ih =>
    intro s acc
    obtain ⟨d, t⟩ := c
    unfold evalCandidates
    cases h : check_time_slot g.checker a d t s.booked_slots with
    | none =>
      simp only [h]
      obtain ⟨ih1, ih2⟩ := ih s (acc ++ [(score_slot sc a d t s.booked_slots, d, t)])
      constructor
      · rw [ih1, List.countP_cons]
        simp [h]
      · rw [ih2, List.filterMap_cons]
        simp [h]
    | some v =>
      simp only [h]
      have hb : (record_failure s a v).booked_slots = s.booked_slots := rfl
      obtain ⟨ih1, ih2⟩ := ih (record_failure s a v) acc
      rw [hb] at ih1 ih2
      obtain ⟨hf1, hf2⟩ := failAttempts_record_failure s a v
      constructor
      · rw [ih1, hf1, List.countP_cons]
        simp only [h, Option.isSome_some, if_pos]
        omega
      · rw [ih2, hf2, List.filterMap_cons]
        simp [h]

/-- The inner backfill loop never touches the failure map. -/
theorem backfillLoop_failed (g : GreedyScheduler) (a : Activity) :
    ∀ (n : Nat) (s : SchedulerState) (sc : SlotScorer) (ld : List Nat),
      (backfillLoop g a n (s, sc, ld)).1.failed_activities = s.failed_activities := by
  intro n
  induction n with
  | zero => intro s sc ld; rfl
  | succ n ih =>
    intro s sc ld
    unfold backfillLoop
    cases h : (pySortDesc (backfillScore g a sc s
        (ld.flatMap fun day => generate_times_for_date a day) [])).head? with
    | some trip =>
      obtain ⟨q, bd, bt⟩ := trip
      simp only [h]
      rw [ih]
      rfl
    | none => simp only [h]

/-- The whole backfill pass never touches the failure map. -/
theorem backfillFold_failed (g : GreedyScheduler) :
    ∀ (acts : List Activity) (s : SchedulerState) (sc : SlotScorer) (ld : List Nat),
      (backfillFold g acts (s, sc, ld)).1.failed_activities = s.failed_activities := by
  intro acts
  induction acts with
  | nil => intro s sc ld; rfl
  | cons a rest ih =>
    intro s sc ld
    unfold backfillFold
    by_cases hm : (calculate_required_occurrences g a - get_occurrence_count s a.id == 0) = true
    · simp only [hm, if_pos]
      exact ih s sc ld
    · rw [Bool.not_eq_true] at hm
      simp only [hm, Bool.false_eq_true, if_false]
      rcases hbl : backfillLoop g a
          (calculate_required_occurrences g a - get_occurrence_count s a.id)
          (s, sc, ld) with ⟨s1, sc1, ld1⟩
      rw [ih s1 sc1 ld1]
      have hfa := backfillLoop_failed g a
        (calculate_required_occurrences g a - get_occurrence_count s a.id) s sc ld
      rw [hbl] at hfa
      exact hfa

/-- C4 (amended): in the Phase-1 main pass every rejected candidate increments
the activity's attempts counter by one and appends its violation to the log
(`evalCandidates` is the candidate loop of `_find_best_slot`); the Phase-2
backfill pass records no failures at all — it leaves the failure map of the
state unchanged. -/
theorem c4_phase1_records_phase2_silent :
    (∀ (g : GreedyScheduler) (a : Activity) (sc : SlotScorer)
        (cands : List (Nat × Nat)) (s : SchedulerState),
      failAttempts (evalCandidates g a sc cands s []).2 a.id =
        failAttempts s a.id +
          cands.countP (fun cand =>
            (check_time_slot g.checker a cand.1 cand.2 s.booked_slots).isSome) ∧
      failViolations (evalCandidates g a sc cands s []).2 a.id =
        failViolations s a.id ++
          cands.filterMap (fun cand =>
            check_time_slot g.checker a cand.1 cand.2 s.booked_slots)) ∧
    (∀ (g : GreedyScheduler) (acts : List Activity) (s : SchedulerState)
        (sc : SlotScorer) (ld : List Nat),
      (backfillFold g acts (s, sc, ld)).1.failed_activities = s.failed_activities) :=
  ⟨fun g a sc cands s => evalCandidates_failures g a sc cands s [],
   fun g acts s sc ld => backfillFold_failed g acts s sc ld⟩

/-- Lookup after the defaultdict increment `activity_occurrences[id] += 1`. -/
theorem alistGet_bumpOccurrence (l : List (String × Nat)) (k i : String) :
    alistGet (bumpOccurrence l k) i =
      if k == i then some ((alistGet l i).getD 0 + 1) else alistGet l i := by
  unfold bumpOccurrence
  by_cases h : (l.find? (fun p => p.1 == k)).isSome = true
  · rw [if_pos h]
    have hm := alistGet_map_update l i k (fun n => n + 1)
    rw [hm]
    by_cases hk : (k == i) = true
    · have hk2 : (i == k) = true := beq_iff_eq.mpr (eq_of_beq hk).symm
      rw [if_pos hk2, if_pos hk]
      have hsome : (alistGet l i).isSome = true := by
        unfold alistGet
        rw [← eq_of_beq hk]
        cases hf : l.find? (fun p => p.1 == k) with
        | none => rw [hf] at h; cases h
        | some v => rfl
      cases hg : alistGet l i with
      | none => rw [hg] at hsome; cases hsome
      | some v => simp
    · have hk2 : (i == k) = false := by
        rw [Bool.not_eq_true] at hk
        rw [Bool.eq_false_iff] at hk ⊢
        intro hc
        exact hk (beq_iff_eq.mpr (eq_of_beq hc).symm)
      rw [if_neg (by simp [hk2]), if_neg (by simp_all)]
  · rw [if_neg h]
    rw [alistGet_append]
    by_cases hk : (k == i) = true
    · rw [if_pos hk, if_pos hk]
      have hnone : alistGet l i = none := by
        unfold alistGet
        rw [← eq_of_beq hk]
        cases hf : l.find? (fun p => p.1 == k) with
        | none => rfl
        | some v => exact absurd (by rw [hf]; rfl) h
      rw [hnone]
      rfl
    · rw [if_neg (by simp_all), if_neg (by simp_all)]
      simp

/-- `add_booking` bumps the occurrence counter of exactly the booked activity. -/
theorem occ_add_booking (s : SchedulerState) (slot : TimeSlot) (i : String) :
    get_occurrence_count (add_booking s slot) i =
      get_occurrence_count s i + (if slot.activity_id == i then 1 else 0) := by
  unfold get_occurrence_count add_booking
  dsimp only
  rw [alistGet_bumpOccurrence]
  by_cases hk : (slot.activity_id == i) = true
  · rw [if_pos hk, if_pos hk]
    rfl
  · rw [if_neg hk, if_neg hk]
    simp

/-- `add_booking` appends one slot, growing the per-id booking count by one for
exactly the booked activity. -/
theorem bookedCount_add_booking (s : SchedulerState) (slot : TimeSlot) (i : String) :
    bookedCount (add_booking s slot) i =
      bookedCount s i + (if slot.activity_id == i then 1 else 0) := by
  unfold bookedCount add_booking
  dsimp only
  rw [List.countP_append, List.countP_cons, List.countP_nil]
  omega

/-- `record_failure` leaves per-id booking counts unchanged. -/
theorem bookedCount_record_failure (s : SchedulerState) (a : Activity)
    (v : ConstraintViolation) (i : String) :
    bookedCount (record_failure s a v) i = bookedCount s i := by
  unfold bookedCount
  rw [record_failure_booked]

/-- `find_best_slot` mutates the state only through `record_failure`: booked
slots are unchanged. -/
theorem find_best_slot_booked (g : GreedyScheduler) (a : Activity)
    (i : Nat) (s : SchedulerState) (sc : SlotScorer) :
    (find_best_slot g a i s sc).2.booked_slots = s.booked_slots := by
  simp only [find_best_slot]
  cases h : (pySortDesc (evalCandidates g a sc
      (generate_candidate_slots g a i s) s []).1).head? with
  | none => simp only [h]; exact evalCandidates_booked g a sc _ s []
  | some trip =>
    obtain ⟨q, bd, bt⟩ := trip
    simp only [h]
    exact evalCandidates_booked g a sc _ s []

/-- `find_best_slot` leaves the occurrence counters unchanged. -/
theorem find_best_slot_occ (g : GreedyScheduler) (a : Activity)
    (i : Nat) (s : SchedulerState) (sc : SlotScorer) :
    (find_best_slot g a i s sc).2.activity_occurrences = s.activity_occurrences := by
  simp only [find_best_slot]
  cases h : (pySortDesc (evalCandidates g a sc
      (generate_candidate_slots g a i s) s []).1).head? with
  | none => simp only [h]; exact evalCandidates_occ g a sc _ s []
  | some trip =>
    obtain ⟨q, bd, bt⟩ := trip
    simp only [h]
    exact evalCandidates_occ g a sc _ s []

/-- Any slot returned by `find_best_slot` carries the activity's id. -/
theorem find_best_slot_id (g : GreedyScheduler) (a : Activity)
    (i : Nat) (s : SchedulerState) (sc : SlotScorer) (slot : TimeSlot)
    (h : (find_best_slot g a i s sc).1 = some slot) :
    slot.activity_id = a.id := by
  simp only [find_best_slot] at h
  cases hh : (pySortDesc (evalCandidates g a sc
      (generate_candidate_slots g a i s) s []).1).head? with
  | none => rw [hh] at h; cases h
  | some trip =>
    obtain ⟨q, bd, bt⟩ := trip
    rw [hh] at h
    cases h
    rfl

/-- The occurrence loop books at most one slot per listed index, all carrying
the activity's id: per-id counts grow by at most the number of indexes, and
only for that id. -/
theorem scheduleOccurrences_bound (g : GreedyScheduler) (a : Activity) :
    ∀ (idxs : List Nat) (s : SchedulerState) (sc : SlotScorer) (i : String),
      bookedCount (scheduleOccurrences g a idxs (s, sc)).1 i ≤
        bookedCount s i + (if a.id == i then idxs.length else 0) := by
  intro idxs
  induction idxs with
  | nil =>
    intro s sc i
    simp [scheduleOccurrences]
  | cons j rest ih =>
    intro s sc i
    unfold scheduleOccurrences
    dsimp only
    cases h : (find_best_slot g a j s sc).1 with
    | some slot =>
      simp only [h]
      have hle := ih (add_booking (find_best_slot g a j s sc).2 slot)
        (record_booking sc a slot.date) i
      have hcount : bookedCount (add_booking (find_best_slot g a j s sc).2 slot) i =
          bookedCount s i + (if a.id == i then 1 else 0) := by
        rw [bookedCount_add_booking]
        have hb : bookedCount (find_best_slot g a j s sc).2 i = bookedCount s i := by
          unfold bookedCount
          rw [find_best_slot_booked]
        rw [hb, find_best_slot_id g a j s sc slot h]
      rw [hcount] at hle
      refine le_trans hle ?_
      by_cases hk : (a.id == i) = true
      · rw [if_pos hk, if_pos hk, if_pos hk]
        simp [List.length_cons]
        omega
      · rw [if_neg hk, if_neg hk, if_neg hk]
    | none =>
      simp only [h]
      have hle := ih (find_best_slot g a j s sc).2 sc i
      have hb : bookedCount (find_best_slot g a j s sc).2 i = bookedCount s i := by
        unfold bookedCount
        rw [find_best_slot_booked]
      rw [hb] at hle
      refine le_trans hle ?_
      by_cases hk : (a.id == i) = true
      · rw [if_pos hk, if_pos hk]
        simp
      · rw [if_neg hk, if_neg hk]

/-- The occurrence loop keeps the occurrence counters in sync with the per-id
booking counts. -/
theorem scheduleOccurrences_sync (g : GreedyScheduler) (a : Activity) :
    ∀ (idxs : List Nat) (s : SchedulerState) (sc : SlotScorer),
      (∀ i, get_occurrence_count s i = bookedCount s i) →
      ∀ i, get_occurrence_count (scheduleOccurrences g a idxs (s, sc)).1 i =
        bookedCount (scheduleOccurrences g a idxs (s, sc)).1 i := by
  intro idxs
  induction idxs with
  | nil =>
    intro s sc hsync i
    simpa [scheduleOccurrences] using hsync i
  | cons j rest ih =>
    intro s sc hsync
    unfold scheduleOccurrences
    dsimp only
    cases h : (find_best_slot g a j s sc).1 with
    | some slot =>
      simp only [h]
      refine ih _ _ ?_
      intro i
      rw [occ_add_booking, bookedCount_add_booking]
      have ho : get_occurrence_count (find_best_slot g a j s sc).2 i =
          get_occurrence_count s i := by
        unfold get_occurrence_count
        rw [find_best_slot_occ]
      have hb : bookedCount (find_best_slot g a j s sc).2 i = bookedCount s i := by
        unfold bookedCount
        rw [find_best_slot_booked]
      rw [ho, hb, hsync i]
    | none =>
      simp only [h]
      refine ih _ _ ?_
      intro i
      have ho : get_occurrence_count (find_best_slot g a j s sc).2 i =
          get_occurrence_count s i := by
        unfold get_occurrence_count
        rw [find_best_slot_occ]
      have hb : bookedCount (find_best_slot g a j s sc).2 i = bookedCount s i := by
        unfold bookedCount
        rw [find_best_slot_booked]
      rw [ho, hb, hsync i]

/-- `_schedule_activity` books at most `required_occurrences` slots for its
activity and none for any other id. -/
theorem schedule_activity_bound (g : GreedyScheduler) (a : Activity)
    (acc : SchedulerState × SlotScorer) (i : String) :
    bookedCount (schedule_activity g acc a).1 i ≤
      bookedCount acc.1 i +
        (if a.id == i then calculate_required_occurrences g a else 0) := by
  obtain ⟨s, sc⟩ := acc
  unfold schedule_activity
  have h := scheduleOccurrences_bound g a
    (List.range (calculate_required_occurrences g a)) s sc i
  rwa [List.length_range] at h

/-- `_schedule_activity` keeps counters and booking counts in sync. -/
theorem schedule_activity_sync (g : GreedyScheduler) (a : Activity)
    (acc : SchedulerState × SlotScorer)
    (hsync : ∀ i, get_occurrence_count acc.1 i = bookedCount acc.1 i) :
    ∀ i, get_occurrence_count (schedule_activity g acc a).1 i =
      bookedCount (schedule_activity g acc a).1 i := by
  obtain ⟨s, sc⟩ := acc
  exact scheduleOccurrences_sync g a _ s sc hsync

/-- The Phase-1 fold over a list of activities raises each per-id booking count
by at most the sum of required occurrences of the activities carrying that id. -/
theorem phase1_fold_bound (g : GreedyScheduler) :
    ∀ (L : List Activity) (acc : SchedulerState × SlotScorer) (i : String),
      bookedCount (L.foldl (schedule_activity g) acc).1 i ≤
        bookedCount acc.1 i +
          ((L.filter (fun b => b.id == i)).map
            (fun b => calculate_required_occurrences g b)).sum := by
  intro L
  induction L with
  | nil => intro acc i; simp
  | cons b rest ih =>
    intro acc i
    rw [List.foldl_cons]
    refine le_trans (ih (schedule_activity g acc b) i) ?_
    have hb := schedule_activity_bound g b acc i
    by_cases hk : (b.id == i) = true
    · rw [show List.filter (fun b => b.id == i) (b :: rest) =
          b :: List.filter (fun b => b.id == i) rest from List.filter_cons_of_pos hk,
        List.map_cons, List.sum_cons]
      rw [if_pos hk] at hb
      omega
    · rw [show List.filter (fun b => b.id == i) (b :: rest) =
          List.filter (fun b => b.id == i) rest from
          List.filter_cons_of_neg (by simp_all)]
      rw [if_neg hk] at hb
      omega

/-- The Phase-1 fold keeps counters and booking counts in sync. -/
theorem phase1_fold_sync (g : GreedyScheduler) :
    ∀ (L : List Activity) (acc : SchedulerState × SlotScorer),
      (∀ i, get_occurrence_count acc.1 i = bookedCount acc.1 i) →
      ∀ i, get_occurrence_count (L.foldl (schedule_activity g) acc).1 i =
        bookedCount (L.foldl (schedule_activity g) acc).1 i := by
  intro L
  induction L with
  | nil => intro acc h i; exact h i
  | cons b rest ih =>
    intro acc h
    rw [List.foldl_cons]
    exact ih _ (schedule_activity_sync g b acc h)

/-- In a list with pairwise-distinct ids, filtering by a member's id yields
exactly that member. -/
theorem filter_eq_single_of_pairwise :
    ∀ (L : List Activity), L.Pairwise (fun x y => x.id ≠ y.id) →
      ∀ a ∈ L, L.filter (fun b => b.id == a.id) = [a] := by
  intro L
  induction L with
  | nil => intro _ a ha; cases ha
  | cons h rest ih =>
    intro hpw a ha
    obtain ⟨hhead, htail⟩ := List.pairwise_cons.mp hpw
    rcases List.mem_cons.mp ha with rfl | ha'
    · rw [show List.filter (fun b => b.id == a.id) (a :: rest) =
          a :: List.filter (fun b => b.id == a.id) rest from
          List.filter_cons_of_pos (by simp)]
      have : rest.filter (fun b => b.id == a.id) = [] := by
        rw [List.filter_eq_nil_iff]
        intro b hb
        simp only [Bool.not_eq_true]
        rw [Bool.eq_false_iff]
        intro hc
        exact hhead b hb (eq_of_beq hc).symm
      rw [this]
    · have hne : (h.id == a.id) = false := by
        rw [Bool.eq_false_iff]
        intro hc
        exact hhead a ha' (eq_of_beq hc)
      rw [show List.filter (fun b => b.id == a.id) (h :: rest) =
          List.filter (fun b => b.id == a.id) rest from
          List.filter_cons_of_neg (by simp [hne])]
      exact ih htail a ha'

/-- Stable insertion permutes to consing. -/
theorem stableInsertBy_perm {α : Type} (le : α → α → Bool) (x : α) :
    ∀ l : List α, (stableInsertBy le x l).Perm (x :: l) := by
  intro l
  induction l with
  | nil => exact List.Perm.refl _
  | cons y ys ih =>
    unfold stableInsertBy
    by_cases h : le y x = true
    · rw [if_pos h]
      exact (List.Perm.cons y ih).trans (List.Perm.swap x y ys)
    · rw [if_neg h]

/-- The stable sort is a permutation of its input. -/
theorem pyStableSortBy_perm {α : Type} (le : α → α → Bool) (l : List α) :
    (pyStableSortBy le l).Perm l := by
  have haux : ∀ (l acc : List α),
      (l.foldl (fun acc x => stableInsertBy le x acc) acc).Perm (acc ++ l) := by
    intro l
    induction l with
    | nil => intro acc; simp
    | cons x xs ih =>
      intro acc
      rw [List.foldl_cons]
      refine (ih (stableInsertBy le x acc)).trans ?_
      refine (List.Perm.append_right xs (stableInsertBy_perm le x acc)).trans ?_
      have : (x :: acc) ++ xs = x :: (acc ++ xs) := rfl
      rw [this]
      exact (List.perm_middle).symm
  simpa using haux l []

/-- The inner backfill loop books at most one slot per round, all carrying the
activity's id. -/
theorem backfillLoop_bound (g : GreedyScheduler) (a : Activity) :
    ∀ (n : Nat) (s : SchedulerState) (sc : SlotScorer) (ld : List Nat) (i : String),
      bookedCount (backfillLoop g a n (s, sc, ld)).1 i ≤
        bookedCount s i + (if a.id == i then n else 0) := by
  intro n
  induction n with
  | zero =>
    intro s sc ld i
    unfold backfillLoop
    by_cases hk : (a.id == i) = true <;> simp
  | succ n ih =>
    intro s sc ld i
    unfold backfillLoop
    cases h : (pySortDesc (backfillScore g a sc s
        (ld.flatMap fun day => generate_times_for_date a day) [])).head? with
    | some trip =>
      obtain ⟨q, bd, bt⟩ := trip
      simp only [h]
      refine le_trans (ih _ _ _ i) ?_
      have hcount := bookedCount_add_booking s
        ⟨a.id, bd, bt, a.duration_minutes, a.specialist_id, a.equipment_ids⟩ i
      dsimp only at hcount
      rw [hcount]
      by_cases hk : (a.id == i) = true
      · rw [if_pos hk, if_pos hk, if_pos hk]
        omega
      · rw [if_neg hk, if_neg hk, if_neg hk]
    | none =>
      simp only [h]
      by_cases hk : (a.id == i) = true <;> simp

/-- The inner backfill loop keeps counters and booking counts in sync. -/
theorem backfillLoop_sync (g : GreedyScheduler) (a : Activity) :
    ∀ (n : Nat) (s : SchedulerState) (sc : SlotScorer) (ld : List Nat),
      (∀ i, get_occurrence_count s i = bookedCount s i) →
      ∀ i, get_occurrence_count (backfillLoop g a n (s, sc, ld)).1 i =
        bookedCount (backfillLoop g a n (s, sc, ld)).1 i := by
  intro n
  induction n with
  | zero =>
    intro s sc ld hsync i
    exact hsync i
  | succ n ih =>
    intro s sc ld hsync i
    unfold backfillLoop
    cases h : (pySortDesc (backfillScore g a sc s
        (ld.flatMap fun day => generate_times_for_date a day) [])).head? with
    | some trip =>
      obtain ⟨q, bd, bt⟩ := trip
      simp only [h]
      refine ih _ _ _ ?_ i
      intro j
      rw [occ_add_booking, bookedCount_add_booking, hsync j]
    | none =>
      simp only [h]
      exact hsync i

/-- Backfilling activities whose ids all differ from `i` never increases the
booking count of `i`. -/
theorem backfillFold_other (g : GreedyScheduler) :
    ∀ (L : List Activity) (s : SchedulerState) (sc : SlotScorer) (ld : List Nat)
      (i : String),
      (∀ b ∈ L, (b.id == i) = false) →
      bookedCount (backfillFold g L (s, sc, ld)).1 i ≤ bookedCount s i := by
  intro L
  induction L with
  | nil => intro s sc ld i _; exact le_refl _
  | cons b rest ih =>
    intro s sc ld i hne
    unfold backfillFold
    by_cases hm : (calculate_required_occurrences g b - get_occurrence_count s b.id == 0) = true
    · simp only [hm, if_pos]
      exact ih s sc ld i (fun b' hb' => hne b' (by simp [hb']))
    · rw [Bool.not_eq_true] at hm
      simp only [hm, Bool.false_eq_true, if_false]
      rcases hbl : backfillLoop g b
          (calculate_required_occurrences g b - get_occurrence_count s b.id)
          (s, sc, ld) with ⟨s1, sc1, ld1⟩
      refine le_trans (ih s1 sc1 ld1 i (fun b' hb' => hne b' (by simp [hb']))) ?_
      have hb := backfillLoop_bound g b
        (calculate_required_occurrences g b - get_occurrence_count s b.id) s sc ld i
      rw [hbl] at hb
      rw [if_neg (by simp [hne b (by simp)])] at hb
      simpa using hb

/-- The backfill pass preserves the per-activity occurrence bound: it books at
most the missing occurrences for each activity, so every activity with a
bounded count stays bounded. -/
theorem backfillFold_main (g : GreedyScheduler) :
    ∀ (L : List Activity) (s : SchedulerState) (sc : SlotScorer) (ld : List Nat),
      L.Pairwise (fun x y => x.id ≠ y.id) →
      (∀ i, get_occurrence_count s i = bookedCount s i) →
      (∀ b ∈ L, bookedCount s b.id ≤ calculate_required_occurrences g b) →
      ∀ a ∈ L, bookedCount (backfillFold g L (s, sc, ld)).1 a.id ≤
        calculate_required_occurrences g a := by
  intro L
  induction L with
  | nil => intro s sc ld _ _ _ a ha; cases ha
  | cons b rest ih =>
    intro s sc ld hpw hsync hbound a ha
    obtain ⟨hhead, htail⟩ := List.pairwise_cons.mp hpw
    unfold backfillFold
    by_cases hm : (calculate_required_occurrences g b - get_occurrence_count s b.id == 0) = true
    · simp only [hm, if_pos]
      rcases List.mem_cons.mp ha with rfl | ha'
      · refine le_trans (backfillFold_other g rest s sc ld a.id ?_) (hbound a (by simp))
        intro b' hb'
        rw [Bool.eq_false_iff]
        intro hc
        exact hhead b' hb' (eq_of_beq hc).symm
      · exact ih s sc ld htail hsync (fun b' hb' => hbound b' (by simp [hb'])) a ha'
    · rw [Bool.not_eq_true] at hm
      simp only [hm, Bool.false_eq_true, if_false]
      rcases hbl : backfillLoop g b
          (calculate_required_occurrences g b - get_occurrence_count s b.id)
          (s, sc, ld) with ⟨s1, sc1, ld1⟩
      have hb1 : ∀ i, bookedCount s1 i ≤ bookedCount s i +
          (if b.id == i then
            calculate_required_occurrences g b - get_occurrence_count s b.id
          else 0) := by
        intro i
        have hb := backfillLoop_bound g b
          (calculate_required_occurrences g b - get_occurrence_count s b.id) s sc ld i
        rw [hbl] at hb
        exact hb
      have hsync1 : ∀ i, get_occurrence_count s1 i = bookedCount s1 i := by
        intro i
        have hs := backfillLoop_sync g b
          (calculate_required_occurrences g b - get_occurrence_count s b.id)
          s sc ld hsync i
        rw [hbl] at hs
        exact hs
      rcases List.mem_cons.mp ha with rfl | ha'
      · refine le_trans (backfillFold_other g rest s1 sc1 ld1 a.id ?_) ?_
        · intro b' hb'
          rw [Bool.eq_false_iff]
          intro hc
          exact hhead b' hb' (eq_of_beq hc).symm
        · have h1 := hb1 a.id
          rw [if_pos (by simp)] at h1
          have h2 := hbound a (by simp)
          have h3 := hsync a.id
          omega
      · refine ih s1 sc1 ld1 htail hsync1 ?_ a ha'
        intro b' hb'
        have h1 := hb1 b'.id
        have hne : (b.id == b'.id) = false := by
          rw [Bool.eq_false_iff]
          intro hc
          exact hhead b' hb' (eq_of_beq hc)
        rw [if_neg (by simp [hne])] at h1
        have h2 := hbound b' (by simp [hb'])
        omega

/-- C7: with pairwise-distinct activity ids (a data-model invariant of the
input set), every activity's booking count is at most its required
occurrences, both after the Phase-1 main pass and in the final state returned
by schedule() — Phase 1 books at most the required occurrences and Phase 2 at
most the missing ones. -/
theorem c7_booked_le_required :
    ∀ (g : GreedyScheduler),
      g.activities.Pairwise (fun x y => x.id ≠ y.id) →
      ∀ a ∈ g.activities,
        bookedCount (runPhase1 g).1 a.id ≤ calculate_required_occurrences g a ∧
        bookedCount (schedule g) a.id ≤ calculate_required_occurrences g a := by
  intro g hpw a ha
  have hperm : (sort_activities g.activities).Perm g.activities :=
    pyStableSortBy_perm _ g.activities
  have hsymm : ∀ {x y : Activity}, x.id ≠ y.id → y.id ≠ x.id :=
    fun h he => h he.symm
  have hpw' : (sort_activities g.activities).Pairwise (fun x y => x.id ≠ y.id) :=
    (List.Perm.pairwise_iff (fun hxy => hsymm hxy) hperm).mpr hpw
  have hmem : a ∈ sort_activities g.activities := hperm.mem_iff.mpr ha
  have hball : ∀ b ∈ sort_activities g.activities,
      bookedCount (runPhase1 g).1 b.id ≤ calculate_required_occurrences g b := by
    intro b hb
    have h := phase1_fold_bound g (sort_activities g.activities)
      (initState, initScorer) b.id
    rw [filter_eq_single_of_pairwise _ hpw' b hb] at h
    simpa [runPhase1, bookedCount, initState] using h
  refine ⟨hball a hmem, ?_⟩
  have hsync1 : ∀ i, get_occurrence_count (runPhase1 g).1 i =
      bookedCount (runPhase1 g).1 i := by
    have h := phase1_fold_sync g (sort_activities g.activities)
      (initState, initScorer) (fun i => rfl)
    simpa [runPhase1] using h
  have hsch : schedule g = (backfillFold g (sort_activities g.activities)
      ((runPhase1 g).1, (runPhase1 g).2,
        find_light_days g (runPhase1 g).1 15)).1 := rfl
  rw [hsch]
  exact backfillFold_main g (sort_activities g.activities) (runPhase1 g).1
    (runPhase1 g).2 (find_light_days g (runPhase1 g).1 15) hpw' hsync1 hball a hmem

/-- Witness for C7: the solo daily activity over a 2-day horizon is booked at
most twice. -/
theorem c7_booked_le_required_witness :
    bookedCount (schedule gSolo) "W" ≤ 2 := by
  have h := (c7_booked_le_required gSolo (by simp [gSolo, newScheduler])
    actSolo (by simp [gSolo, newScheduler])).2
  have hr : calculate_required_occurrences gSolo actSolo = 2 := by decide
  exact le_trans h (le_of_eq hr)
